import Mathlib

/-!
Shallow embedding of the SX127x LoRa driver (`lora_optimized.py`) and proofs
about its register-level behaviour.

The driver state is a record holding the in-memory configuration dictionary
(`_config`) together with the chip registers the driver reads and writes.
Register writes go through `writeReg`, which models `_write`/`_transfer`:
the value must fit in one byte (Python's `bytes([value])` raises otherwise),
so `writeReg` is `Option`-valued.  Python integers are modelled as `Int`
(with `Int.ediv`/`Int.emod` for `>>`/`& 0xff`, which match Python's floor
division and nonnegative remainder, and `Int.lor`/`Int.land`/`Int.lnot` for
the two's-complement bitwise operators), and the floating-point frequency as
`ℚ` (at every concrete frequency used in a theorem below the IEEE double
computation performed by the source is exact, so the rational model agrees
with it there).
-/

namespace SX127x

/- Register addresses (class `Registers` in the source). -/
namespace Registers

def FIFO : Nat := 0x00

def OP_MODE : Nat := 0x01

def FRF_MSB : Nat := 0x06

def FRF_MID : Nat := 0x07

def FRF_LSB : Nat := 0x08

def PA_CONFIG : Nat := 0x09

def LNA : Nat := 0x0c

def FIFO_ADDR_PTR : Nat := 0x0d

def FIFO_TX_BASE_ADDR : Nat := 0x0e

def FIFO_RX_BASE_ADDR : Nat := 0x0f

def IRQ_FLAGS : Nat := 0x12

def MODEM_CONFIG_1 : Nat := 0x1d

def MODEM_CONFIG_2 : Nat := 0x1e

def PREAMBLE_MSB : Nat := 0x20

def PREAMBLE_LSB : Nat := 0x21

def PAYLOAD_LENGTH : Nat := 0x22

def MODEM_CONFIG_3 : Nat := 0x26

def DETECTION_OPTIMIZE : Nat := 0x31

def DETECTION_THRESHOLD : Nat := 0x37

def SYNC_WORD : Nat := 0x39

def VERSION : Nat := 0x42

def PA_DAC : Nat := 0x4D

end Registers

/- Operating modes (class `Modes` in the source). -/
namespace Modes

def SLEEP : Nat := 0x00

def STDBY : Nat := 0x01

def TX : Nat := 0x03

def RX_CONTINUOUS : Nat := 0x05

def LORA_MASK : Nat := 0x80

end Modes

/- IRQ flag bits (class `IRQFlags` in the source). -/
namespace IRQFlags

def TX_DONE : Nat := 0x08

def PAYLOAD_CRC_ERROR : Nat := 0x20

def RX_DONE : Nat := 0x40

end IRQFlags

/- Power-amplifier constants (class `PAConfig` in the source). -/
namespace PAConfig

def RFO_PIN : Int := 0

def BOOST_PIN : Int := 1

def PA_BOOST : Int := 0x80

end PAConfig

/- Limits and defaults (class `Config` in the source). -/
namespace Config

def MAX_PKT_LENGTH : Nat := 255

def TX_BASE_ADDR : Nat := 0x00

def RX_BASE_ADDR : Nat := 0x00

def SX127X_VERSION : Nat := 0x12

/-- Supported bandwidths in Hz, ascending (`Config.BANDWIDTHS`). -/
def BANDWIDTHS : List Int :=
  [7800, 10400, 15600, 20800, 31250, 41700, 62500, 125000, 250000]

end Config

/-- The in-memory configuration dictionary `self._config`.  Python numbers
are modelled as `Int` (frequency, a float, as `ℚ`). -/
structure LoRaConfig where
  frequency : ℚ
  bandwidth : Int
  spreading_factor : Int
  coding_rate : Int
  preamble_length : Int
  tx_power : Int
  crc : Bool
  implicit : Bool
  sync_word : Int
  output_pin : Int
  deriving DecidableEq, Repr

/-- The default configuration `Config.DEFAULT`. -/
def defaultConfig : LoRaConfig where
  frequency := 915
  bandwidth := 250000
  spreading_factor := 10
  coding_rate := 5
  preamble_length := 8
  tx_power := 17
  crc := false
  implicit := false
  sync_word := 0x12
  output_pin := PAConfig.BOOST_PIN

/-- The chip registers the driver touches, identified by name.  `regAddr`
below maps each to the numeric address of class `Registers`. -/
inductive Reg where
  | fifo
  | opMode
  | frfMsb
  | frfMid
  | frfLsb
  | paConfig
  | lna
  | fifoAddrPtr
  | fifoTxBaseAddr
  | fifoRxBaseAddr
  | irqFlags
  | modemConfig1
  | modemConfig2
  | preambleMsb
  | preambleLsb
  | payloadLength
  | modemConfig3
  | detectionOptimize
  | detectionThreshold
  | syncWord
  | paDac
  deriving DecidableEq, Repr

/-- Numeric address of each register, from class `Registers`. -/
def regAddr : Reg → Nat
  | .fifo => Registers.FIFO
  | .opMode => Registers.OP_MODE
  | .frfMsb => Registers.FRF_MSB
  | .frfMid => Registers.FRF_MID
  | .frfLsb => Registers.FRF_LSB
  | .paConfig => Registers.PA_CONFIG
  | .lna => Registers.LNA
  | .fifoAddrPtr => Registers.FIFO_ADDR_PTR
  | .fifoTxBaseAddr => Registers.FIFO_TX_BASE_ADDR
  | .fifoRxBaseAddr => Registers.FIFO_RX_BASE_ADDR
  | .irqFlags => Registers.IRQ_FLAGS
  | .modemConfig1 => Registers.MODEM_CONFIG_1
  | .modemConfig2 => Registers.MODEM_CONFIG_2
  | .preambleMsb => Registers.PREAMBLE_MSB
  | .preambleLsb => Registers.PREAMBLE_LSB
  | .payloadLength => Registers.PAYLOAD_LENGTH
  | .modemConfig3 => Registers.MODEM_CONFIG_3
  | .detectionOptimize => Registers.DETECTION_OPTIMIZE
  | .detectionThreshold => Registers.DETECTION_THRESHOLD
  | .syncWord => Registers.SYNC_WORD
  | .paDac => Registers.PA_DAC

/-- Driver-plus-chip state: the configuration dictionary, the byte value of
each register the driver uses, the sequence of bytes pushed into the chip's
transmit buffer through the `FIFO` register, and the trace of register-write
bus frames issued so far (address, value). -/
structure LoRaState where
  cfg : LoRaConfig
  opMode : Nat
  frfMsb : Nat
  frfMid : Nat
  frfLsb : Nat
  paConfig : Nat
  lna : Nat
  fifoAddrPtr : Nat
  fifoTxBaseAddr : Nat
  fifoRxBaseAddr : Nat
  irqFlags : Nat
  modemConfig1 : Nat
  modemConfig2 : Nat
  preambleMsb : Nat
  preambleLsb : Nat
  payloadLength : Nat
  modemConfig3 : Nat
  detectionOptimize : Nat
  detectionThreshold : Nat
  syncWord : Nat
  paDac : Nat
  fifoBuf : List Nat
  writes : List (Nat × Int)
  deriving DecidableEq, Repr

/-- `_read(addr)`: value of a register as seen by the driver.  A `FIFO` read
streams chip-side reception data; no embedded operation reads it. -/
def readReg (s : LoRaState) : Reg → Nat
  | .fifo => 0
  | .opMode => s.opMode
  | .frfMsb => s.frfMsb
  | .frfMid => s.frfMid
  | .frfLsb => s.frfLsb
  | .paConfig => s.paConfig
  | .lna => s.lna
  | .fifoAddrPtr => s.fifoAddrPtr
  | .fifoTxBaseAddr => s.fifoTxBaseAddr
  | .fifoRxBaseAddr => s.fifoRxBaseAddr
  | .irqFlags => s.irqFlags
  | .modemConfig1 => s.modemConfig1
  | .modemConfig2 => s.modemConfig2
  | .preambleMsb => s.preambleMsb
  | .preambleLsb => s.preambleLsb
  | .payloadLength => s.payloadLength
  | .modemConfig3 => s.modemConfig3
  | .detectionOptimize => s.detectionOptimize
  | .detectionThreshold => s.detectionThreshold
  | .syncWord => s.syncWord
  | .paDac => s.paDac

/-- Chip-side effect of writing byte `b` to a register.  Ordinary registers
latch the byte; a `FIFO` write appends to the packet buffer at the cursor
(hardware auto-advance); the IRQ flag register follows the chip's
write-one-to-clear rule — Modelled from the spec, §3: the IRQ flag set is
"cleared by writing back the bits that are set", so the new value is the old
with every written bit cleared. -/
def applyWrite (s : LoRaState) : Reg → Nat → LoRaState
  | .fifo, b => { s with fifoBuf := s.fifoBuf ++ [b] }
  | .opMode, b => { s with opMode := b }
  | .frfMsb, b => { s with frfMsb := b }
  | .frfMid, b => { s with frfMid := b }
  | .frfLsb, b => { s with frfLsb := b }
  | .paConfig, b => { s with paConfig := b }
  | .lna, b => { s with lna := b }
  | .fifoAddrPtr, b => { s with fifoAddrPtr := b }
  | .fifoTxBaseAddr, b => { s with fifoTxBaseAddr := b }
  | .fifoRxBaseAddr, b => { s with fifoRxBaseAddr := b }
  | .irqFlags, b => { s with irqFlags := s.irqFlags &&& (255 ^^^ b) }
  | .modemConfig1, b => { s with modemConfig1 := b }
  | .modemConfig2, b => { s with modemConfig2 := b }
  | .preambleMsb, b => { s with preambleMsb := b }
  | .preambleLsb, b => { s with preambleLsb := b }
  | .payloadLength, b => { s with payloadLength := b }
  | .modemConfig3, b => { s with modemConfig3 := b }
  | .detectionOptimize, b => { s with detectionOptimize := b }
  | .detectionThreshold, b => { s with detectionThreshold := b }
  | .syncWord, b => { s with syncWord := b }
  | .paDac, b => { s with paDac := b }

/-- `_write(addr, value)`: one bus frame.  `_transfer` packs the value with
`bytes([value])`, which raises unless `0 ≤ value < 256`; a failed write is
`none` (the Python exception propagating). -/
def writeReg (s : LoRaState) (r : Reg) (v : Int) : Option LoRaState :=
  if 0 ≤ v ∧ v < 256 then
    some (applyWrite { s with writes := s.writes ++ [(regAddr r, v)] } r v.toNat)
  else
    none

/-- `_set_mode(mode)`: write `LORA_MASK | mode` to the op-mode register. -/
def setMode (s : LoRaState) (mode : Nat) : Option LoRaState :=
  writeReg s .opMode ((Modes.LORA_MASK ||| mode : Nat) : Int)

/-- Python's `int(q)` on a float/rational: truncation toward zero. -/
def pyTrunc (q : ℚ) : Int :=
  if 0 ≤ q then ⌊q⌋ else ⌈q⌉

/-- Python's `(x >> n) & 0xff` on an arbitrary integer: floor-shift right
then keep the low byte (`& 0xff` is `mod 256` with nonnegative result). -/
def pyByte (x : Int) (n : Nat) : Int :=
  (Int.ediv x (2 ^ n)).emod 256

/-- `get_config()`: a copy of the configuration dictionary. -/
def get_config (s : LoRaState) : LoRaConfig := s.cfg

/-- `set_frequency(frequency)` (frequency in MHz):
`frf = int(frequency * 1000000.0 / 61.03515625)`, then the 24-bit `frf`
is written MSB first into the three frequency registers. -/
def set_frequency (s : LoRaState) (frequency : ℚ) : Option LoRaState :=
  let s := { s with cfg := { s.cfg with frequency := frequency } }
  let frf : Int := pyTrunc (frequency * 1000000 / (61.03515625 : ℚ))
  (writeReg s .frfMsb (pyByte frf 16)).bind fun s =>
  (writeReg s .frfMid (pyByte frf 8)).bind fun s =>
  writeReg s .frfLsb (frf.emod 256)

/-- The bandwidth-index loop of `set_bandwidth`: index of the first table
entry with `bw ≤ entry`, defaulting to 9 when the loop never breaks. -/
def bwIndex (bw : Int) : Nat :=
  (Config.BANDWIDTHS.findIdx? (fun bandwidth => bw ≤ bandwidth)).getD 9

/-- `set_bandwidth(bw)`: store `bw`, write the bandwidth index into the high
nibble of `MODEM_CONFIG_1` (low nibble preserved), then recompute
`MODEM_CONFIG_3` from the stored spreading factor and the new bandwidth. -/
def set_bandwidth (s : LoRaState) (bw : Int) : Option LoRaState :=
  let s := { s with cfg := { s.cfg with bandwidth := bw } }
  let bw_index : Nat := bwIndex bw
  let reg_value : Nat := s.modemConfig1 &&& 0x0f
  (writeReg s .modemConfig1 ((reg_value ||| (bw_index <<< 4) : Nat) : Int)).bind fun s =>
  let sf : Int := s.cfg.spreading_factor
  if sf > 10 ∧ bw < 250000 then
    writeReg s .modemConfig3 0x08
  else
    writeReg s .modemConfig3 0x04

/-- `set_spreading_factor(sf)`: reject `sf` outside `6..12` (ValueError),
otherwise store it, write the factor-6-specific or shared detection
constants, put `sf` in the high nibble of `MODEM_CONFIG_2` (low nibble
preserved), then recompute `MODEM_CONFIG_3` from `sf` and the stored
bandwidth. -/
def set_spreading_factor (s : LoRaState) (sf : Int) : Option LoRaState :=
  if sf < 6 ∨ sf > 12 then none
  else
    let s := { s with cfg := { s.cfg with spreading_factor := sf } }
    (writeReg s .detectionOptimize (if sf = 6 then 0xc5 else 0xc3)).bind fun s =>
    (writeReg s .detectionThreshold (if sf = 6 then 0x0c else 0x0a)).bind fun s =>
    let reg2 : Nat := s.modemConfig2
    (writeReg s .modemConfig2
      (((reg2 &&& 0x0f) ||| ((sf.toNat <<< 4) &&& 0xf0) : Nat) : Int)).bind fun s =>
    let bw : Int := s.cfg.bandwidth
    if sf > 10 ∧ bw < 250000 then
      writeReg s .modemConfig3 0x08
    else
      writeReg s .modemConfig3 0x04

/-- `set_coding_rate(denom)`: clamp to `[5,8]`, store the clamped value,
encode `denom - 4` into bits 1..3 of `MODEM_CONFIG_1`. -/
def set_coding_rate (s : LoRaState) (denom : Int) : Option LoRaState :=
  let denom := min (max denom 5) 8
  let s := { s with cfg := { s.cfg with coding_rate := denom } }
  let cr : Int := denom - 4
  let reg1 : Nat := s.modemConfig1
  writeReg s .modemConfig1 (((reg1 &&& 0xf1) ||| (cr.toNat <<< 1) : Nat) : Int)

/-- `set_preamble_length(length)`: clamp to `[6, 65535]`, store the clamped
value, write it as two bytes MSB first. -/
def set_preamble_length (s : LoRaState) (length : Int) : Option LoRaState :=
  let length := max 6 (min length 65535)
  let s := { s with cfg := { s.cfg with preamble_length := length } }
  (writeReg s .preambleMsb (pyByte length 8)).bind fun s =>
  writeReg s .preambleLsb (length.emod 256)

/-- `set_crc(crc)`: store the flag and set/clear bit 2 of `MODEM_CONFIG_2`. -/
def set_crc (s : LoRaState) (crc : Bool) : Option LoRaState :=
  let s := { s with cfg := { s.cfg with crc := crc } }
  let reg : Nat := s.modemConfig2
  writeReg s .modemConfig2
    ((if crc then reg ||| 0x04 else reg &&& 0xfb : Nat) : Int)

/-- `set_sync_word(sw)`: store and write the sync word. -/
def set_sync_word (s : LoRaState) (sw : Int) : Option LoRaState :=
  let s := { s with cfg := { s.cfg with sync_word := sw } }
  writeReg s .syncWord sw

/-- `set_implicit(implicit)`: store the flag and set/clear bit 0 of
`MODEM_CONFIG_1`. -/
def set_implicit (s : LoRaState) (implicit : Bool) : Option LoRaState :=
  let s := { s with cfg := { s.cfg with implicit := implicit } }
  let reg : Nat := s.modemConfig1
  writeReg s .modemConfig1
    ((if implicit then reg ||| 0x01 else reg &&& 0xfe : Nat) : Int)

/-- `set_tx_power(level, output_pin)`: store level and pin unclamped, then on
the RFO path clamp to `[0,14]` and write `0x70 | level`; on the boost path
with `level > 17` set the `PA_DAC` stage (full pattern above 19, partial
otherwise) and force the field to 15; with `level ≤ 17` clear the `PA_DAC`
stage and encode `level - 2`.  The bitwise operators on possibly negative
Python integers are `Int.lor`/`Int.land`/`Int.lnot`. -/
def set_tx_power (s : LoRaState) (level : Int) (output_pin : Int) : Option LoRaState :=
  let s := { s with cfg := { s.cfg with tx_power := level, output_pin := output_pin } }
  if output_pin = PAConfig.RFO_PIN then
    let level := min (max level 0) 14
    writeReg s .paConfig (Int.lor 0x70 level)
  else
    if level > 17 then
      (if level > 19 then
        writeReg s .paDac (Int.lor (readReg s .paDac) 0x07)
      else
        writeReg s .paDac
          (Int.lor (Int.land (readReg s .paDac) (Int.lnot 0x07)) 0x04)).bind fun s =>
      writeReg s .paConfig (Int.lor PAConfig.PA_BOOST 15)
    else
      (writeReg s .paDac
        (Int.land (readReg s .paDac) (Int.lnot 0x07))).bind fun s =>
      writeReg s .paConfig (Int.lor PAConfig.PA_BOOST (level - 2))


/-- `begin_packet()`: standby, cursor to the transmit base, payload length
to zero. -/
def begin_packet (s : LoRaState) : Option LoRaState :=
  (setMode s Modes.STDBY).bind fun s =>
  (writeReg s .fifoAddrPtr (Config.TX_BASE_ADDR : Int)).bind fun s =>
  writeReg s .payloadLength 0

/-- The `for byte in data` loop of `write_packet`: push each byte through
the `FIFO` register. -/
def writeFifo (s : LoRaState) : List Nat → Option LoRaState
  | [] => some s
  | b :: rest => (writeReg s .fifo (b : Int)).bind fun s => writeFifo s rest

/-- `write_packet(data)`: read the current payload length; if the new total
exceeds `MAX_PKT_LENGTH` raise (ValueError — `none`) before writing
anything; otherwise write every byte to the buffer, update the payload
length register, and return the number of bytes written. -/
def write_packet (s : LoRaState) (data : List Nat) : Option (Nat × LoRaState) :=
  let current_length := readReg s .payloadLength
  let new_length := current_length + data.length
  if new_length > Config.MAX_PKT_LENGTH then none
  else
    (writeFifo s data).bind fun s =>
    (writeReg s .payloadLength (new_length : Int)).map fun s => (data.length, s)

/-- The polling loop of `end_packet`, one step per 10 ms poll.  The chip
raises IRQ bits asynchronously during transmission: `latched i` is the set
of bits the chip latches into the IRQ register before poll `i` (environment
input), OR-ed in because the flags accumulate until acknowledged.  `fuel`
is the number of polls the `timeout` allows. -/
def endPacketLoop (latched : Nat → Nat) : Nat → Nat → LoRaState → Option (Bool × LoRaState)
  | 0, _, s => some (false, s)
  | fuel + 1, i, s =>
    let s := { s with irqFlags := s.irqFlags ||| latched i }
    if readReg s .irqFlags &&& IRQFlags.TX_DONE ≠ 0 then
      (writeReg s .irqFlags (IRQFlags.TX_DONE : Nat)).map fun s => (true, s)
    else
      endPacketLoop latched fuel (i + 1) s

/-- `end_packet(timeout)`: switch to transmit mode, then poll the IRQ flag
register until the transmit-complete bit is seen (acknowledge it, return
`true`) or the polls run out (return `false` with no further write). -/
def end_packet (latched : Nat → Nat) (fuel : Nat) (s : LoRaState) :
    Option (Bool × LoRaState) :=
  (setMode s Modes.TX).bind (endPacketLoop latched fuel 0)

/-- The polling loop of `receive_message`.  `latched i` is the set of IRQ
bits the chip latches before poll `i`; `payloadAt i` is what
`_read_payload()` would extract from the chip's reception registers at poll
`i` (chip-side data, an environment input). -/
def receiveLoop (latched : Nat → Nat) (payloadAt : Nat → List Nat) :
    Nat → Nat → LoRaState → Option (Option (List Nat) × LoRaState)
  | 0, _, s => some (none, s)
  | fuel + 1, i, s =>
    let s := { s with irqFlags := s.irqFlags ||| latched i }
    let irq_flags := readReg s .irqFlags
    if irq_flags &&& IRQFlags.RX_DONE ≠ 0 then
      (writeReg s .irqFlags (IRQFlags.RX_DONE : Nat)).bind fun s =>
      if irq_flags &&& IRQFlags.PAYLOAD_CRC_ERROR = 0 then
        some (some (payloadAt i), s)
      else
        receiveLoop latched payloadAt fuel (i + 1) s
    else
      receiveLoop latched payloadAt fuel (i + 1) s

/-- `receive_message(timeout)`: enter continuous receive, then poll the IRQ
flag register; on receive-complete acknowledge only `RX_DONE`, and return
the payload only when the CRC-error bit was not set at the read. -/
def receive_message (latched : Nat → Nat) (payloadAt : Nat → List Nat)
    (fuel : Nat) (s : LoRaState) : Option (Option (List Nat) × LoRaState) :=
  (setMode s Modes.RX_CONTINUOUS).bind (receiveLoop latched payloadAt fuel 0)

/-- `_irq_handler(pin)`: read the IRQ flags, write them all back (clearing
every bit that was set), and deliver the payload when receive-complete is
set and CRC-error is not.  `payload` is what `_read_payload()` would
extract (chip-side data). -/
def irq_handler (s : LoRaState) (payload : List Nat) :
    Option (Option (List Nat) × LoRaState) :=
  let irq_flags := readReg s .irqFlags
  (writeReg s .irqFlags (irq_flags : Int)).map fun s =>
    if irq_flags &&& IRQFlags.RX_DONE ≠ 0 ∧ irq_flags &&& IRQFlags.PAYLOAD_CRC_ERROR = 0 then
      (some payload, s)
    else
      (none, s)

/-- The retry loop of `_verify_chip_version`: while the read value is not
the expected constant and fewer than 5 retries have happened, wait and read
again.  `reads i` is the value the chip returns for the `i`-th read of the
version register (environment input).  Returns the final value and the
retry count. -/
def verifyLoop (reads : Nat → Nat) (version : Nat) (attempts : Nat) : Nat × Nat :=
  if h : version ≠ Config.SX127X_VERSION ∧ attempts < 5 then
    verifyLoop reads (reads (attempts + 1)) (attempts + 1)
  else
    (version, attempts)
termination_by 5 - attempts
decreasing_by omega

/-- `_verify_chip_version()`: initial read plus the retry loop; returns
whether the warning was printed (still mismatched at the end) and the total
number of version-register reads performed. -/
def verify_chip_version (reads : Nat → Nat) : Bool × Nat :=
  let r := verifyLoop reads (reads 0) 0
  (r.1 != Config.SX127X_VERSION, r.2 + 1)

/-- `_configure_radio()`: base addresses, all parameter setters from the
stored configuration, LNA boost, automatic gain control, transmit power. -/
def configure_radio (s : LoRaState) : Option LoRaState :=
  (writeReg s .fifoTxBaseAddr (Config.TX_BASE_ADDR : Int)).bind fun s =>
  (writeReg s .fifoRxBaseAddr (Config.RX_BASE_ADDR : Int)).bind fun s =>
  (set_frequency s s.cfg.frequency).bind fun s =>
  (set_bandwidth s s.cfg.bandwidth).bind fun s =>
  (set_spreading_factor s s.cfg.spreading_factor).bind fun s =>
  (set_coding_rate s s.cfg.coding_rate).bind fun s =>
  (set_preamble_length s s.cfg.preamble_length).bind fun s =>
  (set_crc s s.cfg.crc).bind fun s =>
  (set_sync_word s s.cfg.sync_word).bind fun s =>
  (set_implicit s s.cfg.implicit).bind fun s =>
  (writeReg s .lna ((readReg s .lna ||| 0x03 : Nat) : Int)).bind fun s =>
  (writeReg s .modemConfig3 0x04).bind fun s =>
  set_tx_power s s.cfg.tx_power s.cfg.output_pin

/-- `__init__` after `_init_config`: version check (advisory), sleep,
configure, standby.  Returns whether the version warning was surfaced and
the resulting state; the version-check outcome never gates the rest. -/
def lora_init (reads : Nat → Nat) (s0 : LoRaState) : Bool × Option LoRaState :=
  ((verify_chip_version reads).1,
    (setMode s0 Modes.SLEEP).bind fun s =>
    (configure_radio s).bind fun s =>
    setMode s Modes.STDBY)

/-- One public configuration-setter call, for reasoning about arbitrary
sequences of setters. -/
inductive SetterCall where
  | frequency (f : ℚ)
  | bandwidth (bw : Int)
  | spreadingFactor (sf : Int)
  | codingRate (denom : Int)
  | preambleLength (length : Int)
  | crc (b : Bool)
  | syncWord (sw : Int)
  | implicitHeader (b : Bool)
  | txPower (level pin : Int)
  deriving DecidableEq, Repr

/-- Dispatch one setter call. -/
def applyCall (s : LoRaState) : SetterCall → Option LoRaState
  | .frequency f => set_frequency s f
  | .bandwidth bw => set_bandwidth s bw
  | .spreadingFactor sf => set_spreading_factor s sf
  | .codingRate denom => set_coding_rate s denom
  | .preambleLength length => set_preamble_length s length
  | .crc b => set_crc s b
  | .syncWord sw => set_sync_word s sw
  | .implicitHeader b => set_implicit s b
  | .txPower level pin => set_tx_power s level pin

/-- Run a sequence of setter calls, stopping at the first exception. -/
def applyCalls (s : LoRaState) : List SetterCall → Option LoRaState
  | [] => some s
  | c :: cs => (applyCall s c).bind fun s => applyCalls s cs

/-- What one setter call does to the configuration dictionary, read off the
source: `coding_rate` and `preamble_length` are stored clamped, every other
parameter — `tx_power` included — is stored exactly as passed. -/
def cfgAfter (c : LoRaConfig) : SetterCall → LoRaConfig
  | .frequency f => { c with frequency := f }
  | .bandwidth bw => { c with bandwidth := bw }
  | .spreadingFactor sf => { c with spreading_factor := sf }
  | .codingRate denom => { c with coding_rate := min (max denom 5) 8 }
  | .preambleLength length => { c with preamble_length := max 6 (min length 65535) }
  | .crc b => { c with crc := b }
  | .syncWord sw => { c with sync_word := sw }
  | .implicitHeader b => { c with implicit := b }
  | .txPower level pin => { c with tx_power := level, output_pin := pin }

/-- A concrete state for witnesses and counterexamples: default
configuration, every register and buffer zeroed, empty write trace. -/
def testState : LoRaState where
  cfg := defaultConfig
  opMode := 0
  frfMsb := 0
  frfMid := 0
  frfLsb := 0
  paConfig := 0
  lna := 0
  fifoAddrPtr := 0
  fifoTxBaseAddr := 0
  fifoRxBaseAddr := 0
  irqFlags := 0
  modemConfig1 := 0
  modemConfig2 := 0
  preambleMsb := 0
  preambleLsb := 0
  payloadLength := 0
  modemConfig3 := 0
  detectionOptimize := 0
  detectionThreshold := 0
  syncWord := 0
  paDac := 0
  fifoBuf := []
  writes := []

/-! ### Helper lemmas -/

/-- A register write with an in-range value succeeds and latches it. -/
theorem writeReg_eq_some (s : LoRaState) (r : Reg) (v : Int) (h0 : 0 ≤ v) (h1 : v < 256) :
    writeReg s r v =
      some (applyWrite { s with writes := s.writes ++ [(regAddr r, v)] } r v.toNat) := by
  simp [writeReg, h0, h1]

/-- A register write of a natural-number value below 256 succeeds. -/
theorem writeReg_coe (s : LoRaState) (r : Reg) (n : Nat) (h : n < 256) :
    writeReg s r (n : Int) =
      some (applyWrite { s with writes := s.writes ++ [(regAddr r, (n : Int))] } r n) := by
  have h0 : (0 : Int) ≤ (n : Int) := Int.ofNat_nonneg n
  have h1 : (n : Int) < 256 := by exact_mod_cast h
  rw [writeReg_eq_some s r (n : Int) h0 h1, Int.toNat_ofNat]

/-- Register writes never touch the configuration dictionary. -/
theorem cfg_of_writeReg {s s' : LoRaState} {r : Reg} {v : Int}
    (h : writeReg s r v = some s') : s'.cfg = s.cfg := by
  unfold writeReg at h
  split at h
  · injection h with h
    subst h
    cases r <;> rfl
  · cases h

/-- Closed form of the bandwidth-index search loop. -/
theorem bwIndex_eq (bw : Int) :
    bwIndex bw =
      if bw ≤ 7800 then 0 else if bw ≤ 10400 then 1 else if bw ≤ 15600 then 2
      else if bw ≤ 20800 then 3 else if bw ≤ 31250 then 4 else if bw ≤ 41700 then 5
      else if bw ≤ 62500 then 6 else if bw ≤ 125000 then 7 else if bw ≤ 250000 then 8
      else 9 := by
  unfold bwIndex Config.BANDWIDTHS
  simp only [List.findIdx?_cons, List.findIdx?_nil, decide_eq_true_eq]
  split_ifs <;> rfl

/-- The bandwidth index never exceeds the fallback value 9. -/
theorem bwIndex_le (bw : Int) : bwIndex bw ≤ 9 := by
  rw [bwIndex_eq]
  split_ifs <;> omega

/-- `Nat.ldiff` of a byte, rewritten with kernel-computable operations. -/
theorem ldiff_byte (a b : Nat) (ha : a < 256) :
    Nat.ldiff a b = a &&& ((b &&& 255) ^^^ 255) := by
  apply Nat.eq_of_testBit_eq
  intro i
  have t255 : (255 : Nat).testBit i = decide (i < 8) := by
    have h8 : (255 : Nat) = 2 ^ 8 - 1 := by norm_num
    rw [h8, Nat.testBit_two_pow_sub_one]
  rcases lt_or_ge i 8 with h | h
  · simp only [Nat.testBit_ldiff, Nat.testBit_and, Nat.testBit_xor, t255, h,
      decide_True, Bool.and_true, Bool.xor_true]
  · have hz : a.testBit i = false :=
      Nat.testBit_lt_two_pow
        (lt_of_lt_of_le ha (Nat.pow_le_pow_right (by norm_num : 0 < 2) h))
    simp [Nat.testBit_ldiff, Nat.testBit_and, hz]

/-- Python's `x | y` on two nonnegative integers. -/
theorem int_lor_ofNat (m n : Nat) :
    Int.lor (m : Int) (n : Int) = ((m ||| n : Nat) : Int) := rfl

/-- Python's `x & ~0x07` on a register byte clears the low three bits. -/
theorem int_land_lnot_seven (n : Nat) (hn : n < 256) :
    Int.land (n : Int) (Int.lnot 7) = ((n &&& 248 : Nat) : Int) := by
  have h1 : Int.lnot 7 = Int.negSucc 7 := rfl
  have h2 : Int.land (n : Int) (Int.negSucc 7) = ((Nat.ldiff n 7 : Nat) : Int) := rfl
  have h3 : ((7 &&& 255) ^^^ 255 : Nat) = 248 := by decide
  rw [h1, h2, ldiff_byte n 7 hn, h3]

/-- ORing a high-nibble pattern onto a low nibble is addition. -/
theorem lor_nibbles : ∀ a < 16, ∀ k ≤ 15, a ||| (k <<< 4) = a + 16 * k := by decide

/-- Low nibble of a byte via the mask. -/
theorem and_15_eq_mod (x : Nat) : x &&& 15 = x % 16 := by
  apply Nat.eq_of_testBit_eq
  intro i
  have h15 : (15 : Nat) = 2 ^ 4 - 1 := by norm_num
  have h16 : (16 : Nat) = 2 ^ 4 := by norm_num
  rw [h15, h16, Nat.testBit_and, Nat.testBit_two_pow_sub_one, Nat.testBit_mod_two_pow]
  cases x.testBit i <;> simp [Bool.and_comm]

/-- `Int.emod 256` always lands in a byte. -/
theorem emod256_nonneg (x : Int) : 0 ≤ x.emod 256 := Int.emod_nonneg x (by norm_num)

/-- `Int.emod 256` always lands in a byte. -/
theorem emod256_lt (x : Int) : x.emod 256 < 256 := Int.emod_lt_of_pos x (by norm_num)

/-- Full effect of `set_frequency` on the state. -/
theorem set_frequency_eq (s : LoRaState) (f : ℚ) :
    set_frequency s f = some
      { s with
        cfg := { s.cfg with frequency := f },
        frfMsb := (pyByte (pyTrunc (f * 1000000 / (61.03515625 : ℚ))) 16).toNat,
        frfMid := (pyByte (pyTrunc (f * 1000000 / (61.03515625 : ℚ))) 8).toNat,
        frfLsb := ((pyTrunc (f * 1000000 / (61.03515625 : ℚ))).emod 256).toNat,
        writes := s.writes ++
          [(Registers.FRF_MSB, pyByte (pyTrunc (f * 1000000 / (61.03515625 : ℚ))) 16),
           (Registers.FRF_MID, pyByte (pyTrunc (f * 1000000 / (61.03515625 : ℚ))) 8),
           (Registers.FRF_LSB, (pyTrunc (f * 1000000 / (61.03515625 : ℚ))).emod 256)] } := by
  simp only [set_frequency, pyByte]
  rw [writeReg_eq_some _ _ _ (emod256_nonneg _) (emod256_lt _)]
  simp only [Option.some_bind, applyWrite]
  rw [writeReg_eq_some _ _ _ (emod256_nonneg _) (emod256_lt _)]
  simp only [Option.some_bind, applyWrite]
  rw [writeReg_eq_some _ _ _ (emod256_nonneg _) (emod256_lt _)]
  simp [applyWrite, regAddr, List.append_assoc]

/-- Full effect of `set_bandwidth` on the state. -/
theorem set_bandwidth_eq (s : LoRaState) (bw : Int) :
    set_bandwidth s bw = some
      { s with
        cfg := { s.cfg with bandwidth := bw },
        modemConfig1 := (s.modemConfig1 &&& 0x0f) ||| (bwIndex bw <<< 4),
        modemConfig3 := if s.cfg.spreading_factor > 10 ∧ bw < 250000 then 0x08 else 0x04,
        writes := s.writes ++
          [(Registers.MODEM_CONFIG_1,
            (((s.modemConfig1 &&& 0x0f) ||| (bwIndex bw <<< 4) : Nat) : Int)),
           (Registers.MODEM_CONFIG_3,
            if s.cfg.spreading_factor > 10 ∧ bw < 250000 then 0x08 else 0x04)] } := by
  have h256 : (256 : Nat) = 2 ^ 8 := by norm_num
  have hmc1 : (s.modemConfig1 &&& 0x0f) ||| (bwIndex bw <<< 4) < 256 := by
    rw [h256]
    refine Nat.or_lt_two_pow (Nat.and_lt_two_pow _ (by norm_num)) ?_
    rw [Nat.shiftLeft_eq]
    have := bwIndex_le bw
    omega
  simp only [set_bandwidth]
  rw [writeReg_coe _ _ _ hmc1]
  simp only [Option.some_bind, applyWrite]
  by_cases hc : s.cfg.spreading_factor > 10 ∧ bw < 250000
  · rw [if_pos hc, writeReg_eq_some _ _ 8 (by norm_num) (by norm_num)]
    simp [applyWrite, regAddr, hc]
  · rw [if_neg hc, writeReg_eq_some _ _ 4 (by norm_num) (by norm_num)]
    simp [applyWrite, regAddr, hc]

/-- Full effect of `set_spreading_factor` on the state, for an in-range
factor. -/
theorem set_spreading_factor_eq (s : LoRaState) (sf : Int) (h6 : 6 ≤ sf) (h12 : sf ≤ 12) :
    set_spreading_factor s sf = some
      { s with
        cfg := { s.cfg with spreading_factor := sf },
        detectionOptimize := if sf = 6 then 0xc5 else 0xc3,
        detectionThreshold := if sf = 6 then 0x0c else 0x0a,
        modemConfig2 := (s.modemConfig2 &&& 0x0f) ||| ((sf.toNat <<< 4) &&& 0xf0),
        modemConfig3 := if sf > 10 ∧ s.cfg.bandwidth < 250000 then 0x08 else 0x04,
        writes := s.writes ++
          [(Registers.DETECTION_OPTIMIZE, (if sf = 6 then 0xc5 else 0xc3 : Int)),
           (Registers.DETECTION_THRESHOLD, (if sf = 6 then 0x0c else 0x0a : Int)),
           (Registers.MODEM_CONFIG_2,
             (((s.modemConfig2 &&& 0x0f) ||| ((sf.toNat <<< 4) &&& 0xf0) : Nat) : Int)),
           (Registers.MODEM_CONFIG_3,
             (if sf > 10 ∧ s.cfg.bandwidth < 250000 then 0x08 else 0x04 : Int))] } := by
  have hguard : ¬(sf < 6 ∨ sf > 12) := by omega
  have h256 : (256 : Nat) = 2 ^ 8 := by norm_num
  have hmc2 : (s.modemConfig2 &&& 0x0f) ||| ((sf.toNat <<< 4) &&& 0xf0) < 256 := by
    rw [h256]
    exact Nat.or_lt_two_pow (Nat.and_lt_two_pow _ (by norm_num))
      (Nat.and_lt_two_pow _ (by norm_num))
  simp only [set_spreading_factor]
  rw [if_neg hguard]
  rcases eq_or_ne sf 6 with h6' | h6'
  · have hc : ¬(sf > 10 ∧ s.cfg.bandwidth < 250000) := by omega
    simp only [if_pos h6', if_neg hc]
    rw [writeReg_eq_some _ _ 0xc5 (by norm_num) (by norm_num)]
    simp only [Option.some_bind, applyWrite]
    rw [writeReg_eq_some _ _ 0x0c (by norm_num) (by norm_num)]
    simp only [Option.some_bind, applyWrite]
    rw [writeReg_coe _ _ _ hmc2]
    simp only [Option.some_bind, applyWrite]
    dsimp only
    rw [if_neg hc, writeReg_eq_some _ _ 4 (by norm_num) (by norm_num)]
    simp [applyWrite, regAddr]
  · simp only [if_neg h6']
    by_cases hc : sf > 10 ∧ s.cfg.bandwidth < 250000
    · simp only [if_pos hc]
      rw [writeReg_eq_some _ _ 0xc3 (by norm_num) (by norm_num)]
      simp only [Option.some_bind, applyWrite]
      rw [writeReg_eq_some _ _ 0x0a (by norm_num) (by norm_num)]
      simp only [Option.some_bind, applyWrite]
      rw [writeReg_coe _ _ _ hmc2]
      simp only [Option.some_bind, applyWrite]
      dsimp only
      rw [if_pos hc, writeReg_eq_some _ _ 8 (by norm_num) (by norm_num)]
      simp [applyWrite, regAddr]
    · simp only [if_neg hc]
      rw [writeReg_eq_some _ _ 0xc3 (by norm_num) (by norm_num)]
      simp only [Option.some_bind, applyWrite]
      rw [writeReg_eq_some _ _ 0x0a (by norm_num) (by norm_num)]
      simp only [Option.some_bind, applyWrite]
      rw [writeReg_coe _ _ _ hmc2]
      simp only [Option.some_bind, applyWrite]
      dsimp only
      rw [if_neg hc, writeReg_eq_some _ _ 4 (by norm_num) (by norm_num)]
      simp [applyWrite, regAddr]

/-! ### Claim C2: MODEM_CONFIG_3 is recomputed order-independently -/

/-- C2: for every spreading factor in 6..12 and every bandwidth, applying
`set_bandwidth` and `set_spreading_factor` in either order leaves
`MODEM_CONFIG_3` in the same final state: the low-data-rate-optimize value
`0x08` exactly when `sf > 10` and `bw < 250000` Hz, and otherwise `0x04`,
only the automatic-gain-control bit. -/
theorem C2_modemConfig3_order_independent (s : LoRaState) (sf bw : Int)
    (h6 : 6 ≤ sf) (h12 : sf ≤ 12) :
    ∃ s1 s2,
      (set_bandwidth s bw).bind (fun t => set_spreading_factor t sf) = some s1 ∧
      (set_spreading_factor s sf).bind (fun t => set_bandwidth t bw) = some s2 ∧
      s1.modemConfig3 = s2.modemConfig3 ∧
      s1.modemConfig3 = (if sf > 10 ∧ bw < 250000 then 0x08 else 0x04) := by
  rw [set_bandwidth_eq, Option.some_bind, set_spreading_factor_eq _ _ h6 h12,
    set_spreading_factor_eq _ _ h6 h12, Option.some_bind, set_bandwidth_eq]
  exact ⟨_, _, rfl, rfl, by simp, by simp⟩

/-- Witness for C2 at spreading factor 11 and bandwidth 125000. -/
theorem C2_witness :
    ∃ s1 s2,
      (set_bandwidth testState 125000).bind (fun t => set_spreading_factor t 11) = some s1 ∧
      (set_spreading_factor testState 11).bind (fun t => set_bandwidth t 125000) = some s2 ∧
      s1.modemConfig3 = s2.modemConfig3 ∧
      s1.modemConfig3 = (if (11 : Int) > 10 ∧ (125000 : Int) < 250000 then 0x08 else 0x04) :=
  C2_modemConfig3_order_independent testState 11 125000 (by norm_num) (by norm_num)

/-! ### Claim C5: bandwidth index selection and register packing -/

set_option maxHeartbeats 1600000 in
/-- C5: `set_bandwidth` writes into the high nibble of `MODEM_CONFIG_1` the
index of the first entry of the ascending bandwidth table that is at least
the requested value, preserving the low nibble; when no entry qualifies the
fallback index 9 — one past the table's end — is used. -/
theorem C5_bandwidth_index (s : LoRaState) (bw : Int) :
    ∃ s', set_bandwidth s bw = some s' ∧
      s'.modemConfig1 % 16 = s.modemConfig1 % 16 ∧
      s'.modemConfig1 / 16 = bwIndex bw ∧
      (bw ≤ 250000 →
        bwIndex bw < Config.BANDWIDTHS.length ∧
        bw ≤ Config.BANDWIDTHS.getD (bwIndex bw) 0 ∧
        ∀ j < bwIndex bw, Config.BANDWIDTHS.getD j 0 < bw) ∧
      (250000 < bw → bwIndex bw = Config.BANDWIDTHS.length) := by
  refine ⟨_, set_bandwidth_eq s bw, ?_, ?_, ?_, ?_⟩
  · have ha : s.modemConfig1 &&& 15 < 16 := by
      rw [and_15_eq_mod]
      exact Nat.mod_lt _ (by norm_num)
    have hk := bwIndex_le bw
    show ((s.modemConfig1 &&& 0x0f) ||| (bwIndex bw <<< 4)) % 16 = s.modemConfig1 % 16
    rw [lor_nibbles _ ha _ (by omega), and_15_eq_mod]
    omega
  · have ha : s.modemConfig1 &&& 15 < 16 := by
      rw [and_15_eq_mod]
      exact Nat.mod_lt _ (by norm_num)
    have hk := bwIndex_le bw
    show ((s.modemConfig1 &&& 0x0f) ||| (bwIndex bw <<< 4)) / 16 = bwIndex bw
    rw [lor_nibbles _ ha _ (by omega)]
    omega
  · intro hle
    rw [bwIndex_eq]
    split_ifs <;>
      refine ⟨by simp [Config.BANDWIDTHS], by simp [Config.BANDWIDTHS]; omega, ?_⟩ <;>
      (intro j hj; interval_cases j <;> simp [Config.BANDWIDTHS] <;> omega)
  · intro hgt
    rw [bwIndex_eq]
    split_ifs <;> first | rfl | omega

/-- Witness for C5 at the requested bandwidth 125000: index 7, and at
300000: fallback index 9. -/
theorem C5_witness :
    (∃ s', set_bandwidth testState 125000 = some s' ∧
      s'.modemConfig1 % 16 = testState.modemConfig1 % 16 ∧
      s'.modemConfig1 / 16 = bwIndex 125000 ∧
      ((125000 : Int) ≤ 250000 →
        bwIndex 125000 < Config.BANDWIDTHS.length ∧
        (125000 : Int) ≤ Config.BANDWIDTHS.getD (bwIndex 125000) 0 ∧
        ∀ j < bwIndex 125000, Config.BANDWIDTHS.getD j 0 < 125000) ∧
      ((250000 : Int) < 125000 → bwIndex 125000 = Config.BANDWIDTHS.length)) ∧
    bwIndex 125000 = 7 ∧ bwIndex 300000 = 9 :=
  ⟨C5_bandwidth_index testState 125000, by decide, by decide⟩

/-! ### Claim C3: frequency synthesis -/

/-- C3 (amended): `set_frequency` computes `frf` by truncating
`f_Hz / 61.03515625` toward zero (the source's `int(...)`, the floor for a
nonnegative frequency) — not by rounding to nearest — and writes the 24-bit
result MSB first into the three frequency registers, so the value
reconstructed from the three bytes is exactly `frf` and lies within one
step (61.03515625 Hz) below the requested frequency. -/
theorem C3_set_frequency (s : LoRaState) (f : ℚ) (h0 : 0 ≤ f)
    (hlt : f * 1000000 / (61.03515625 : ℚ) < 2 ^ 24) :
    ∃ s', set_frequency s f = some s' ∧
      ((s'.frfMsb * 65536 + s'.frfMid * 256 + s'.frfLsb : Nat) : Int)
        = pyTrunc (f * 1000000 / (61.03515625 : ℚ)) ∧
      pyTrunc (f * 1000000 / (61.03515625 : ℚ)) = ⌊f * 1000000 / (61.03515625 : ℚ)⌋ ∧
      0 ≤ f * 1000000 -
        (pyTrunc (f * 1000000 / (61.03515625 : ℚ)) : ℚ) * (61.03515625 : ℚ) ∧
      f * 1000000 -
        (pyTrunc (f * 1000000 / (61.03515625 : ℚ)) : ℚ) * (61.03515625 : ℚ)
        < (61.03515625 : ℚ) := by
  have hstep : (0 : ℚ) < (61.03515625 : ℚ) := by norm_num
  set q : ℚ := f * 1000000 / (61.03515625 : ℚ) with hqdef
  have hq0 : 0 ≤ q := by positivity
  have htr : pyTrunc q = ⌊q⌋ := if_pos hq0
  have hfl0 : 0 ≤ ⌊q⌋ := Int.le_floor.mpr (by exact_mod_cast hq0)
  have hfllt : ⌊q⌋ < 2 ^ 24 := by
    rw [Int.floor_lt]
    exact_mod_cast hlt
  have hle : (⌊q⌋ : ℚ) ≤ q := Int.floor_le q
  have hlt1 : q < ⌊q⌋ + 1 := Int.lt_floor_add_one q
  have hmul : q * (61.03515625 : ℚ) = f * 1000000 := by
    rw [hqdef]
    field_simp
  refine ⟨_, set_frequency_eq s f, ?_, htr, ?_, ?_⟩
  · rw [htr]
    have hb1 : (0 : Int) ≤ pyByte ⌊q⌋ 16 := emod256_nonneg _
    have hb2 : (0 : Int) ≤ pyByte ⌊q⌋ 8 := emod256_nonneg _
    have hb3 : (0 : Int) ≤ (⌊q⌋).emod 256 := emod256_nonneg _
    push_cast [htr, Int.toNat_of_nonneg hb1, Int.toNat_of_nonneg hb2,
      Int.toNat_of_nonneg hb3]
    simp only [pyByte]
    rw [show ((2 : Int) ^ (16 : Nat)) = 65536 by norm_num,
      show ((2 : Int) ^ (8 : Nat)) = 256 by norm_num,
      show Int.ediv ⌊q⌋ 65536 = ⌊q⌋ / 65536 from rfl,
      show Int.ediv ⌊q⌋ 256 = ⌊q⌋ / 256 from rfl,
      show Int.emod (⌊q⌋ / 65536) 256 = (⌊q⌋ / 65536) % 256 from rfl,
      show Int.emod (⌊q⌋ / 256) 256 = (⌊q⌋ / 256) % 256 from rfl,
      show Int.emod ⌊q⌋ 256 = ⌊q⌋ % 256 from rfl]
    omega
  · rw [htr]
    nlinarith [mul_le_mul_of_nonneg_right hle (le_of_lt hstep)]
  · rw [htr]
    nlinarith [mul_lt_mul_of_pos_right hlt1 hstep]

set_option maxRecDepth 8000 in
/-- C3 counterexample: at the frequency 915.0000457763671875 MHz (a value
exact in IEEE double arithmetic), `f_Hz / 61.03515625 = 14991360.75`; the
source truncates and writes 14991360 (bytes `0xE4 0xC0 0x00`), while
rounding as the claim states would give 14991361. -/
theorem C3_counterexample :
    ∃ s', set_frequency testState (59965443 / 65536 : ℚ) = some s' ∧
      s'.frfMsb = 0xE4 ∧ s'.frfMid = 0xC0 ∧ s'.frfLsb = 0x00 ∧
      ((s'.frfMsb * 65536 + s'.frfMid * 256 + s'.frfLsb : Nat) : Int) = 14991360 ∧
      round ((59965443 / 65536 : ℚ) * 1000000 / (61.03515625 : ℚ)) = 14991361 ∧
      (14991360 : Int) ≠ 14991361 := by
  have hq : (59965443 / 65536 : ℚ) * 1000000 / (61.03515625 : ℚ)
      = 59965443 / 4 := by norm_num
  have hfl : (⌊(59965443 / 4 : ℚ)⌋ : Int) = 14991360 := by
    rw [Int.floor_eq_iff]
    constructor <;> norm_num
  have htr : pyTrunc (59965443 / 65536 * 1000000 / (61.03515625 : ℚ)) = 14991360 := by
    rw [hq, pyTrunc, if_pos (by norm_num), hfl]
  have hrd : round ((59965443 / 65536 : ℚ) * 1000000 / (61.03515625 : ℚ))
      = 14991361 := by
    rw [hq, round_eq, Int.floor_eq_iff]
    constructor <;> norm_num
  refine ⟨_, set_frequency_eq testState _, ?_, ?_, ?_, ?_, hrd, by decide⟩
  · show (pyByte (pyTrunc (59965443 / 65536 * 1000000 / (61.03515625 : ℚ))) 16).toNat = 0xE4
    rw [htr]
    decide
  · show (pyByte (pyTrunc (59965443 / 65536 * 1000000 / (61.03515625 : ℚ))) 8).toNat = 0xC0
    rw [htr]
    decide
  · show ((pyTrunc (59965443 / 65536 * 1000000 / (61.03515625 : ℚ))).emod 256).toNat = 0x00
    rw [htr]
    decide
  · have hb16 : (pyByte 14991360 16).toNat = 228 := by decide
    have hb8 : (pyByte 14991360 8).toNat = 192 := by decide
    have hb0 : ((14991360 : Int).emod 256).toNat = 0 := by decide
    dsimp only
    rw [htr, hb16, hb8, hb0]
    norm_num

/-- Witness for C3 at 915.0 MHz: both hypotheses hold and the theorem
applies, putting the reconstructed frequency within one step of 915 MHz. -/
theorem C3_witness :
    (0 : ℚ) ≤ 915 ∧ (915 : ℚ) * 1000000 / (61.03515625 : ℚ) < 2 ^ 24 ∧
    (∃ s', set_frequency testState 915 = some s' ∧
      ((s'.frfMsb * 65536 + s'.frfMid * 256 + s'.frfLsb : Nat) : Int)
        = pyTrunc ((915 : ℚ) * 1000000 / (61.03515625 : ℚ)) ∧
      pyTrunc ((915 : ℚ) * 1000000 / (61.03515625 : ℚ))
        = ⌊(915 : ℚ) * 1000000 / (61.03515625 : ℚ)⌋ ∧
      0 ≤ (915 : ℚ) * 1000000 -
        (pyTrunc ((915 : ℚ) * 1000000 / (61.03515625 : ℚ)) : ℚ) * (61.03515625 : ℚ) ∧
      (915 : ℚ) * 1000000 -
        (pyTrunc ((915 : ℚ) * 1000000 / (61.03515625 : ℚ)) : ℚ) * (61.03515625 : ℚ)
        < (61.03515625 : ℚ)) :=
  ⟨by norm_num, by norm_num,
    C3_set_frequency testState 915 (by norm_num) (by norm_num)⟩

/-- A register write of a negative value fails: `bytes([value])` raises. -/
theorem writeReg_eq_none (s : LoRaState) (r : Reg) (v : Int) (h : v < 0) :
    writeReg s r v = none := by
  rw [writeReg, if_neg]
  rintro ⟨h0, -⟩
  omega

/-- Python's `x | y` with `x` nonnegative and `y` negative is negative. -/
theorem int_lor_neg (x y : Int) (hx : 0 ≤ x) (hy : y < 0) : Int.lor x y < 0 := by
  obtain ⟨n, rfl⟩ := Int.eq_ofNat_of_zero_le hx
  cases y with
  | ofNat k => exact absurd hy (Int.ofNat_nonneg k).not_lt
  | negSucc k =>
    show Int.lor (Int.ofNat n) (Int.negSucc k) < 0
    rw [show Int.lor (Int.ofNat n) (Int.negSucc k) = Int.negSucc (Nat.ldiff k n) from rfl]
    exact Int.negSucc_lt_zero _

/-- ORing a pattern with only high bits onto a small natural is addition. -/
theorem lor_pattern : (∀ n < 16, 112 ||| n = 112 + n) ∧ ∀ n < 16, 128 ||| n = 128 + n := by
  decide

/-- ORing the RFO pattern 0x70 onto a clamped level is addition. -/
theorem int_lor_112 (x : Int) (h0 : 0 ≤ x) (h : x < 16) :
    Int.lor 112 x = 112 + x := by
  obtain ⟨n, rfl⟩ := Int.eq_ofNat_of_zero_le h0
  have hn : n < 16 := by exact_mod_cast h
  show Int.lor 112 (Int.ofNat n) = 112 + Int.ofNat n
  rw [show Int.lor 112 (Int.ofNat n) = ((112 ||| n : Nat) : Int) from rfl,
    lor_pattern.1 n hn]
  push_cast
  rfl

/-- ORing the boost flag 0x80 onto a small encoded level is addition. -/
theorem int_lor_128 (x : Int) (h0 : 0 ≤ x) (h : x < 16) :
    Int.lor 128 x = 128 + x := by
  obtain ⟨n, rfl⟩ := Int.eq_ofNat_of_zero_le h0
  have hn : n < 16 := by exact_mod_cast h
  show Int.lor 128 (Int.ofNat n) = 128 + Int.ofNat n
  rw [show Int.lor 128 (Int.ofNat n) = ((128 ||| n : Nat) : Int) from rfl,
    lor_pattern.2 n hn]
  push_cast
  rfl

/-- Full effect of `set_coding_rate` on the state. -/
theorem set_coding_rate_eq (s : LoRaState) (denom : Int) :
    set_coding_rate s denom = some
      { s with
        cfg := { s.cfg with coding_rate := min (max denom 5) 8 },
        modemConfig1 :=
          (s.modemConfig1 &&& 0xf1) ||| ((min (max denom 5) 8 - 4).toNat <<< 1),
        writes := s.writes ++ [(Registers.MODEM_CONFIG_1,
          (((s.modemConfig1 &&& 0xf1) |||
            ((min (max denom 5) 8 - 4).toNat <<< 1) : Nat) : Int))] } := by
  have hb : (s.modemConfig1 &&& 0xf1) ||| ((min (max denom 5) 8 - 4).toNat <<< 1) < 256 := by
    have h1 : (min (max denom 5) 8 - 4).toNat ≤ 4 := by omega
    rw [show (256 : Nat) = 2 ^ 8 by norm_num]
    refine Nat.or_lt_two_pow (Nat.and_lt_two_pow _ (by norm_num)) ?_
    rw [Nat.shiftLeft_eq]
    omega
  simp only [set_coding_rate]
  rw [writeReg_coe _ _ _ hb]
  simp [applyWrite, regAddr]

/-- Full effect of `set_preamble_length` on the state. -/
theorem set_preamble_length_eq (s : LoRaState) (length : Int) :
    set_preamble_length s length = some
      { s with
        cfg := { s.cfg with preamble_length := max 6 (min length 65535) },
        preambleMsb := (pyByte (max 6 (min length 65535)) 8).toNat,
        preambleLsb := ((max 6 (min length 65535)).emod 256).toNat,
        writes := s.writes ++
          [(Registers.PREAMBLE_MSB, pyByte (max 6 (min length 65535)) 8),
           (Registers.PREAMBLE_LSB, (max 6 (min length 65535)).emod 256)] } := by
  simp only [set_preamble_length, pyByte]
  rw [writeReg_eq_some _ _ _ (emod256_nonneg _) (emod256_lt _)]
  simp only [Option.some_bind, applyWrite]
  rw [writeReg_eq_some _ _ _ (emod256_nonneg _) (emod256_lt _)]
  simp [applyWrite, regAddr, pyByte]

/-- Full effect of `set_crc` on the state (register value read as a byte). -/
theorem set_crc_eq (s : LoRaState) (crc : Bool) (hmc2 : s.modemConfig2 < 256) :
    set_crc s crc = some
      { s with
        cfg := { s.cfg with crc := crc },
        modemConfig2 := if crc then s.modemConfig2 ||| 0x04 else s.modemConfig2 &&& 0xfb,
        writes := s.writes ++ [(Registers.MODEM_CONFIG_2,
          ((if crc then s.modemConfig2 ||| 0x04 else s.modemConfig2 &&& 0xfb : Nat) : Int))] } := by
  have hb : (if crc then s.modemConfig2 ||| 0x04 else s.modemConfig2 &&& 0xfb) < 256 := by
    cases crc with
    | false => simpa using Nat.and_lt_two_pow s.modemConfig2 (by norm_num : (0xfb : Nat) < 2 ^ 8)
    | true =>
      simp only [if_true]
      rw [show (256 : Nat) = 2 ^ 8 by norm_num]
      exact Nat.or_lt_two_pow (by exact_mod_cast hmc2) (by norm_num)
  simp only [set_crc]
  rw [writeReg_coe _ _ _ hb]
  simp [applyWrite, regAddr]

/-- Full effect of `set_sync_word` for a byte-range sync word. -/
theorem set_sync_word_eq (s : LoRaState) (sw : Int) (h0 : 0 ≤ sw) (h1 : sw < 256) :
    set_sync_word s sw = some
      { s with
        cfg := { s.cfg with sync_word := sw },
        syncWord := sw.toNat,
        writes := s.writes ++ [(Registers.SYNC_WORD, sw)] } := by
  simp only [set_sync_word]
  rw [writeReg_eq_some _ _ _ h0 h1]
  simp [applyWrite, regAddr]

/-- Full effect of `set_implicit` on the state (register read as a byte). -/
theorem set_implicit_eq (s : LoRaState) (implicit : Bool) (hmc1 : s.modemConfig1 < 256) :
    set_implicit s implicit = some
      { s with
        cfg := { s.cfg with implicit := implicit },
        modemConfig1 := if implicit then s.modemConfig1 ||| 0x01 else s.modemConfig1 &&& 0xfe,
        writes := s.writes ++ [(Registers.MODEM_CONFIG_1,
          ((if implicit then s.modemConfig1 ||| 0x01 else s.modemConfig1 &&& 0xfe : Nat) : Int))] } := by
  have hb : (if implicit then s.modemConfig1 ||| 0x01 else s.modemConfig1 &&& 0xfe) < 256 := by
    cases implicit with
    | false => simpa using Nat.and_lt_two_pow s.modemConfig1 (by norm_num : (0xfe : Nat) < 2 ^ 8)
    | true =>
      simp only [if_true]
      rw [show (256 : Nat) = 2 ^ 8 by norm_num]
      exact Nat.or_lt_two_pow (by exact_mod_cast hmc1) (by norm_num)
  simp only [set_implicit]
  rw [writeReg_coe _ _ _ hb]
  simp [applyWrite, regAddr]

/-- Effect of `set_tx_power` on the RFO path: level clamped to [0,14] and
ORed onto the 0x70 pattern; the stored `tx_power` is the unclamped level. -/
theorem set_tx_power_rfo_eq (s : LoRaState) (level : Int) :
    set_tx_power s level PAConfig.RFO_PIN = some
      { s with
        cfg := { s.cfg with tx_power := level, output_pin := PAConfig.RFO_PIN },
        paConfig := 112 + (min (max level 0) 14).toNat,
        writes := s.writes ++
          [(Registers.PA_CONFIG, Int.lor 0x70 (min (max level 0) 14))] } := by
  have hc0 : (0 : Int) ≤ min (max level 0) 14 := by omega
  have hc16 : min (max level 0) 14 < 16 := by omega
  have hlor := int_lor_112 _ hc0 hc16
  simp only [set_tx_power, if_pos rfl]
  rw [writeReg_eq_some _ _ _ (by omega) (by rw [hlor]; omega)]
  have htn : (Int.lor 112 (min (max level 0) 14)).toNat
      = 112 + (min (max level 0) 14).toNat := by
    rw [hlor]
    omega
  rw [htn]
  simp [applyWrite, regAddr]

/-- Effect of `set_tx_power` on the boost path above 19 dBm: full `PA_DAC`
enable pattern, level field forced to 15 (register byte 0x8F). -/
theorem set_tx_power_boost_high_eq (s : LoRaState) (level : Int)
    (h : level > 19) (hpa : s.paDac < 256) :
    set_tx_power s level PAConfig.BOOST_PIN = some
      { s with
        cfg := { s.cfg with tx_power := level, output_pin := PAConfig.BOOST_PIN },
        paDac := s.paDac ||| 0x07,
        paConfig := 0x8F,
        writes := s.writes ++
          [(Registers.PA_DAC, ((s.paDac ||| 0x07 : Nat) : Int)),
           (Registers.PA_CONFIG, ((0x8F : Nat) : Int))] } := by
  have hpin : (PAConfig.BOOST_PIN : Int) ≠ PAConfig.RFO_PIN := by
    rw [PAConfig.BOOST_PIN, PAConfig.RFO_PIN]
    norm_num
  have hb : s.paDac ||| 0x07 < 256 := by
    rw [show (256 : Nat) = 2 ^ 8 by norm_num]
    exact Nat.or_lt_two_pow (by exact_mod_cast hpa) (by norm_num)
  simp only [set_tx_power, readReg, if_neg hpin, if_pos (by omega : level > 17),
    if_pos h]
  rw [show Int.lor (s.paDac : Int) 7 = ((s.paDac ||| 7 : Nat) : Int) from rfl,
    writeReg_coe _ _ _ hb]
  simp only [Option.some_bind, applyWrite]
  rw [show Int.lor PAConfig.PA_BOOST 15 = ((0x8F : Nat) : Int) from rfl,
    writeReg_coe _ _ _ (by norm_num)]
  simp [applyWrite, regAddr]

/-- Effect of `set_tx_power` on the boost path at 18-19 dBm: partial
`PA_DAC` pattern, level field forced to 15 (register byte 0x8F). -/
theorem set_tx_power_boost_mid_eq (s : LoRaState) (level : Int)
    (h17 : level > 17) (h19 : ¬level > 19) (hpa : s.paDac < 256) :
    set_tx_power s level PAConfig.BOOST_PIN = some
      { s with
        cfg := { s.cfg with tx_power := level, output_pin := PAConfig.BOOST_PIN },
        paDac := (s.paDac &&& 0xF8) ||| 0x04,
        paConfig := 0x8F,
        writes := s.writes ++
          [(Registers.PA_DAC, (((s.paDac &&& 0xF8) ||| 0x04 : Nat) : Int)),
           (Registers.PA_CONFIG, ((0x8F : Nat) : Int))] } := by
  have hpin : (PAConfig.BOOST_PIN : Int) ≠ PAConfig.RFO_PIN := by
    rw [PAConfig.BOOST_PIN, PAConfig.RFO_PIN]
    norm_num
  have hb : (s.paDac &&& 0xF8) ||| 0x04 < 256 := by
    rw [show (256 : Nat) = 2 ^ 8 by norm_num]
    exact Nat.or_lt_two_pow (Nat.and_lt_two_pow _ (by norm_num)) (by norm_num)
  simp only [set_tx_power, readReg, if_neg hpin, if_pos h17, if_neg h19]
  rw [int_land_lnot_seven _ hpa,
    show Int.lor ((s.paDac &&& 248 : Nat) : Int) 4
      = (((s.paDac &&& 248) ||| 4 : Nat) : Int) from rfl,
    writeReg_coe _ _ _ hb]
  simp only [Option.some_bind, applyWrite]
  rw [show Int.lor PAConfig.PA_BOOST 15 = ((0x8F : Nat) : Int) from rfl,
    writeReg_coe _ _ _ (by norm_num)]
  simp [applyWrite, regAddr]

/-- Effect of `set_tx_power` on the boost path at 2-17 dBm: `PA_DAC` stage
cleared, encoded field `level - 2` ORed onto the boost flag. -/
theorem set_tx_power_boost_low_eq (s : LoRaState) (level : Int)
    (h2 : 2 ≤ level) (h17 : ¬level > 17) (hpa : s.paDac < 256) :
    set_tx_power s level PAConfig.BOOST_PIN = some
      { s with
        cfg := { s.cfg with tx_power := level, output_pin := PAConfig.BOOST_PIN },
        paDac := s.paDac &&& 0xF8,
        paConfig := (128 + (level - 2)).toNat,
        writes := s.writes ++
          [(Registers.PA_DAC, ((s.paDac &&& 0xF8 : Nat) : Int)),
           (Registers.PA_CONFIG, 128 + (level - 2))] } := by
  have hpin : (PAConfig.BOOST_PIN : Int) ≠ PAConfig.RFO_PIN := by
    rw [PAConfig.BOOST_PIN, PAConfig.RFO_PIN]
    norm_num
  have hb : s.paDac &&& 0xF8 < 256 := lt_of_le_of_lt Nat.and_le_right (by norm_num)
  have hlor : Int.lor PAConfig.PA_BOOST (level - 2) = 128 + (level - 2) := by
    rw [PAConfig.PA_BOOST]
    exact int_lor_128 _ (by omega) (by omega)
  simp only [set_tx_power, readReg, if_neg hpin, if_neg h17]
  rw [int_land_lnot_seven _ hpa, writeReg_coe _ _ _ hb]
  simp only [Option.some_bind, applyWrite]
  rw [hlor, writeReg_eq_some _ _ _ (by omega) (by omega)]
  simp [applyWrite, regAddr]

/-- On the boost path below 2 dBm the encoded field `level - 2` is negative,
the byte written to `PA_CONFIG` is negative, and the write raises. -/
theorem set_tx_power_boost_invalid (s : LoRaState) (level : Int)
    (h2 : level < 2) (hpa : s.paDac < 256) :
    set_tx_power s level PAConfig.BOOST_PIN = none := by
  have hpin : (PAConfig.BOOST_PIN : Int) ≠ PAConfig.RFO_PIN := by
    rw [PAConfig.BOOST_PIN, PAConfig.RFO_PIN]
    norm_num
  have hb : s.paDac &&& 0xF8 < 256 := lt_of_le_of_lt Nat.and_le_right (by norm_num)
  have hneg : Int.lor PAConfig.PA_BOOST (level - 2) < 0 := by
    rw [PAConfig.PA_BOOST]
    exact int_lor_neg _ _ (by norm_num) (by omega)
  simp only [set_tx_power, readReg, if_neg hpin, if_neg (by omega : ¬level > 17)]
  rw [int_land_lnot_seven _ hpa, writeReg_coe _ _ _ hb]
  simp only [Option.some_bind, applyWrite]
  exact writeReg_eq_none _ _ _ hneg

/-! ### Claim C6: transmit-power encoding -/

/-- C6: `set_tx_power` writes, on the RFO path, `0x70` ORed with the level
clamped to [0,14]; on the boost path above 17 dBm it enables the `PA_DAC`
stage (full pattern `|= 0x07` above 19, partial `(& ~0x07) | 0x04`
otherwise) and forces the level field to 15 (byte `0x8F`); on the boost
path at 2-17 dBm it clears the `PA_DAC` stage and encodes `level - 2` on
the boost flag. -/
theorem C6_set_tx_power (s : LoRaState) (level : Int) (hpa : s.paDac < 256) :
    (∃ s', set_tx_power s level PAConfig.RFO_PIN = some s' ∧
       (s'.paConfig : Int) = 0x70 + min (max level 0) 14) ∧
    (level > 19 → ∃ s', set_tx_power s level PAConfig.BOOST_PIN = some s' ∧
       s'.paDac = s.paDac ||| 0x07 ∧ s'.paConfig = 0x8F) ∧
    (17 < level → level ≤ 19 → ∃ s',
       set_tx_power s level PAConfig.BOOST_PIN = some s' ∧
       s'.paDac = (s.paDac &&& 0xF8) ||| 0x04 ∧ s'.paConfig = 0x8F) ∧
    (2 ≤ level → level ≤ 17 → ∃ s',
       set_tx_power s level PAConfig.BOOST_PIN = some s' ∧
       s'.paDac = s.paDac &&& 0xF8 ∧ (s'.paConfig : Int) = 0x80 + (level - 2)) := by
  refine ⟨⟨_, set_tx_power_rfo_eq s level, ?_⟩, ?_, ?_, ?_⟩
  · have hc0 : (0 : Int) ≤ min (max level 0) 14 := by omega
    push_cast [Int.toNat_of_nonneg hc0]
    omega
  · intro h
    exact ⟨_, set_tx_power_boost_high_eq s level h hpa, rfl, rfl⟩
  · intro h17 h19
    exact ⟨_, set_tx_power_boost_mid_eq s level h17 (by omega) hpa, rfl, rfl⟩
  · intro h2 h17
    refine ⟨_, set_tx_power_boost_low_eq s level h2 (by omega) hpa, rfl, ?_⟩
    push_cast [Int.toNat_of_nonneg (show (0 : Int) ≤ 128 + (level - 2) by omega)]
    omega

/-- Witness for C6: `set_tx_power(20, BOOST)` gives the full `PA_DAC`
pattern with register byte 0x8F (field 15), and `set_tx_power(14, RFO)`
encodes 0x70 with level 14. -/
theorem C6_witness :
    (∃ s', set_tx_power testState 20 PAConfig.BOOST_PIN = some s' ∧
       s'.paDac = testState.paDac ||| 0x07 ∧ s'.paConfig = 0x8F) ∧
    (∃ s', set_tx_power testState 14 PAConfig.RFO_PIN = some s' ∧
       (s'.paConfig : Int) = 0x70 + min (max (14 : Int) 0) 14) :=
  ⟨(C6_set_tx_power testState 20 (by decide)).2.1 (by norm_num),
   (C6_set_tx_power testState 14 (by decide)).1⟩

/-! ### Claim C10: missing lower clamp on the boost path -/

/-- C10: on the boost path `set_tx_power` applies no lower clamp: for
`level < 2` the encoded field `level - 2` is negative, the value
`PA_BOOST | (level - 2)` passed to the register-write primitive is outside
the byte range 0..255 that the single-byte bus transfer can encode, and the
call raises; for `level ≥ 2` the call succeeds with a valid register
byte. -/
theorem C10_boost_no_lower_clamp (s : LoRaState) (level : Int) (hpa : s.paDac < 256) :
    (level < 2 →
       Int.lor PAConfig.PA_BOOST (level - 2) < 0 ∧
       ¬(0 ≤ Int.lor PAConfig.PA_BOOST (level - 2) ∧
         Int.lor PAConfig.PA_BOOST (level - 2) < 256) ∧
       set_tx_power s level PAConfig.BOOST_PIN = none) ∧
    (2 ≤ level → ∃ s',
       set_tx_power s level PAConfig.BOOST_PIN = some s' ∧ s'.paConfig < 256) := by
  constructor
  · intro h2
    have hneg : Int.lor PAConfig.PA_BOOST (level - 2) < 0 := by
      rw [PAConfig.PA_BOOST]
      exact int_lor_neg _ _ (by norm_num) (by omega)
    refine ⟨hneg, ?_, set_tx_power_boost_invalid s level h2 hpa⟩
    rintro ⟨h0, -⟩
    omega
  · intro h2
    by_cases h19 : level > 19
    · exact ⟨_, set_tx_power_boost_high_eq s level h19 hpa, by norm_num⟩
    · by_cases h17 : level > 17
      · exact ⟨_, set_tx_power_boost_mid_eq s level h17 h19 hpa, by norm_num⟩
      · refine ⟨_, set_tx_power_boost_low_eq s level h2 h17 hpa, ?_⟩
        show (128 + (level - 2)).toNat < 256
        omega

/-- Witness for C10 at levels 1 (rejected: negative register value) and 2
(accepted: valid byte). -/
theorem C10_witness :
    (Int.lor PAConfig.PA_BOOST ((1 : Int) - 2) < 0 ∧
     ¬(0 ≤ Int.lor PAConfig.PA_BOOST ((1 : Int) - 2) ∧
       Int.lor PAConfig.PA_BOOST ((1 : Int) - 2) < 256) ∧
     set_tx_power testState 1 PAConfig.BOOST_PIN = none) ∧
    (∃ s', set_tx_power testState 2 PAConfig.BOOST_PIN = some s' ∧ s'.paConfig < 256) :=
  ⟨(C10_boost_no_lower_clamp testState 1 (by decide)).1 (by norm_num),
   (C10_boost_no_lower_clamp testState 2 (by decide)).2 (by norm_num)⟩

/-! ### Claim C4: packet-size guard in write_packet -/

/-- The FIFO write loop appends exactly the given bytes and touches neither
the payload-length register nor the configuration. -/
theorem writeFifo_eq (data : List Nat) (h : ∀ b ∈ data, b < 256) :
    ∀ s : LoRaState, ∃ s', writeFifo s data = some s' ∧
      s'.fifoBuf = s.fifoBuf ++ data ∧
      s'.payloadLength = s.payloadLength ∧
      s'.cfg = s.cfg := by
  induction data with
  | nil =>
    intro s
    exact ⟨s, rfl, by simp, rfl, rfl⟩
  | cons b rest ih =>
    intro s
    have hb : b < 256 := h b (List.mem_cons_self b rest)
    simp only [writeFifo]
    rw [writeReg_coe _ _ _ hb]
    simp only [Option.some_bind, applyWrite]
    obtain ⟨s', hs', hf, hp, hc⟩ := ih (fun x hx => h x (List.mem_cons_of_mem _ hx)) _
    exact ⟨s', hs', by rw [hf]; simp, by rw [hp], by rw [hc]⟩

/-- C4: within one packet, a `write_packet` call whose data would push the
payload past 255 bytes raises before writing anything; a call that fits
writes every byte to the buffer (bytes from earlier calls remaining in
place), sets the payload-length register to the new total, and returns the
number of bytes written. -/
theorem C4_write_packet (s : LoRaState) (data : List Nat) :
    (readReg s .payloadLength + data.length > 255 →
       write_packet s data = none) ∧
    (readReg s .payloadLength + data.length ≤ 255 →
       (∀ b ∈ data, b < 256) →
       ∃ s', write_packet s data = some (data.length, s') ∧
         s'.fifoBuf = s.fifoBuf ++ data ∧
         s'.payloadLength = readReg s .payloadLength + data.length) := by
  constructor
  · intro hgt
    simp only [write_packet, Config.MAX_PKT_LENGTH]
    rw [if_pos hgt]
  · intro hle hb
    simp only [write_packet, Config.MAX_PKT_LENGTH]
    rw [if_neg (by omega)]
    obtain ⟨s1, hs1, hf, hp, -⟩ := writeFifo_eq data hb s
    rw [hs1]
    simp only [Option.some_bind]
    rw [writeReg_coe _ _ _ (by omega : readReg s .payloadLength + data.length < 256)]
    simp only [Option.map_some']
    refine ⟨_, rfl, ?_, ?_⟩
    · show s1.fifoBuf = s.fifoBuf ++ data
      exact hf
    · rfl

/-- Witness for C4: with 250 bytes already in the packet, a 6-byte write is
rejected while a 3-byte write succeeds and lands in the buffer. -/
theorem C4_witness :
    (write_packet { testState with payloadLength := 250 } [1, 2, 3, 4, 5, 6] = none) ∧
    (∃ s', write_packet { testState with payloadLength := 250 } [1, 2, 3]
        = some (([1, 2, 3] : List Nat).length, s') ∧
      s'.fifoBuf = ({ testState with payloadLength := 250 } : LoRaState).fifoBuf ++ [1, 2, 3] ∧
      s'.payloadLength =
        readReg { testState with payloadLength := 250 } .payloadLength +
          ([1, 2, 3] : List Nat).length) :=
  ⟨(C4_write_packet { testState with payloadLength := 250 } [1, 2, 3, 4, 5, 6]).1 (by decide),
   (C4_write_packet { testState with payloadLength := 250 } [1, 2, 3]).2 (by decide) (by decide)⟩

/-! ### Claim C8: advisory version check -/

/-- The retry loop exits as soon as the expected version is read or the
retry budget is exhausted. -/
theorem verifyLoop_stop (reads : Nat → Nat) (v a : Nat)
    (h : v = Config.SX127X_VERSION ∨ 5 ≤ a) :
    verifyLoop reads v a = (v, a) := by
  unfold verifyLoop
  rw [dif_neg]
  rintro ⟨hv, ha⟩
  rcases h with h | h
  · exact hv h
  · omega

/-- One retry of the version-check loop. -/
theorem verifyLoop_step (reads : Nat → Nat) (v a : Nat)
    (hv : v ≠ Config.SX127X_VERSION) (ha : a < 5) :
    verifyLoop reads v a = verifyLoop reads (reads (a + 1)) (a + 1) := by
  conv_lhs => rw [verifyLoop]
  rw [dif_pos ⟨hv, ha⟩]

/-- The version check reads the register at most 6 times, and warns exactly
when none of those reads returned the expected constant. -/
theorem verify_cases (reads : Nat → Nat) :
    (verify_chip_version reads).2 ≤ 6 ∧
    ((verify_chip_version reads).1 = true ↔ ∀ i ≤ 5, reads i ≠ 0x12) := by
  simp only [verify_chip_version]
  by_cases h0 : reads 0 = 0x12
  · rw [verifyLoop_stop reads _ 0 (Or.inl h0)]
    refine ⟨by norm_num, ?_⟩
    simp [h0, Config.SX127X_VERSION]
    exact ⟨0, by norm_num, h0⟩
  · rw [verifyLoop_step reads _ 0 h0 (by norm_num)]
    by_cases h1 : reads 1 = 0x12
    · rw [verifyLoop_stop reads _ 1 (Or.inl h1)]
      refine ⟨by norm_num, ?_⟩
      simp [h1, Config.SX127X_VERSION]
      exact ⟨1, by norm_num, h1⟩
    · rw [verifyLoop_step reads _ 1 h1 (by norm_num)]
      by_cases h2 : reads 2 = 0x12
      · rw [verifyLoop_stop reads _ 2 (Or.inl h2)]
        refine ⟨by norm_num, ?_⟩
        simp [h2, Config.SX127X_VERSION]
        exact ⟨2, by norm_num, h2⟩
      · rw [verifyLoop_step reads _ 2 h2 (by norm_num)]
        by_cases h3 : reads 3 = 0x12
        · rw [verifyLoop_stop reads _ 3 (Or.inl h3)]
          refine ⟨by norm_num, ?_⟩
          simp [h3, Config.SX127X_VERSION]
          exact ⟨3, by norm_num, h3⟩
        · rw [verifyLoop_step reads _ 3 h3 (by norm_num)]
          by_cases h4 : reads 4 = 0x12
          · rw [verifyLoop_stop reads _ 4 (Or.inl h4)]
            refine ⟨by norm_num, ?_⟩
            simp [h4, Config.SX127X_VERSION]
            exact ⟨4, by norm_num, h4⟩
          · rw [verifyLoop_step reads _ 4 h4 (by norm_num)]
            rw [verifyLoop_stop reads _ 5 (Or.inr (le_refl 5))]
            refine ⟨by norm_num, ?_⟩
            by_cases h5 : reads 5 = 0x12
            · simp [h5, Config.SX127X_VERSION]
              exact ⟨5, by norm_num, h5⟩
            · simp only [Config.SX127X_VERSION]
              constructor
              · intro hne i hi
                interval_cases i <;> assumption
              · intro hall
                simpa using bne_iff_ne.mpr h5

/-- Byte-register invariant carried through the initialization chain. -/
def regBytes (s : LoRaState) : Prop :=
  s.modemConfig1 < 256 ∧ s.modemConfig2 < 256 ∧ s.lna < 256 ∧ s.paDac < 256

/-- A write to a register outside the tracked four keeps the invariant and
the configuration. -/
theorem writeReg_other_some (s : LoRaState) (r : Reg) (n : Nat) (hn : n < 256)
    (hr : r = Reg.opMode ∨ r = Reg.fifoTxBaseAddr ∨ r = Reg.fifoRxBaseAddr ∨
      r = Reg.modemConfig3)
    (hb : regBytes s) :
    ∃ s', writeReg s r (n : Int) = some s' ∧ s'.cfg = s.cfg ∧ regBytes s' := by
  refine ⟨_, writeReg_coe s r n hn, ?_, ?_⟩
  · rcases hr with rfl | rfl | rfl | rfl <;> rfl
  · rcases hr with rfl | rfl | rfl | rfl <;> exact hb

/-- The AGC write `MODEM_CONFIG_3 := 0x04` keeps the invariant. -/
theorem writeReg_mc3_some (s : LoRaState) (hb : regBytes s) :
    ∃ s', writeReg s .modemConfig3 0x04 = some s' ∧ s'.cfg = s.cfg ∧ regBytes s' :=
  ⟨_, writeReg_eq_some s .modemConfig3 0x04 (by norm_num) (by norm_num), rfl, hb⟩

/-- The LNA-boost write keeps the invariant. -/
theorem writeReg_lna_some (s : LoRaState) (hb : regBytes s) :
    ∃ s', writeReg s .lna ((readReg s .lna ||| 0x03 : Nat) : Int) = some s' ∧
      s'.cfg = s.cfg ∧ regBytes s' := by
  have hbnd : readReg s .lna ||| 0x03 < 256 := by
    rw [show (256 : Nat) = 2 ^ 8 by norm_num]
    exact Nat.or_lt_two_pow (by exact_mod_cast hb.2.2.1) (by norm_num)
  exact ⟨_, writeReg_coe _ _ _ hbnd, rfl, hb.1, hb.2.1, hbnd, hb.2.2.2⟩

/-- `set_frequency` succeeds and keeps the invariant. -/
theorem set_frequency_some (s : LoRaState) (f : ℚ) (hb : regBytes s) :
    ∃ s', set_frequency s f = some s' ∧
      s'.cfg = { s.cfg with frequency := f } ∧ regBytes s' :=
  ⟨_, set_frequency_eq s f, rfl, hb⟩

/-- `set_bandwidth` succeeds and keeps the invariant. -/
theorem set_bandwidth_some (s : LoRaState) (bw : Int) (hb : regBytes s) :
    ∃ s', set_bandwidth s bw = some s' ∧
      s'.cfg = { s.cfg with bandwidth := bw } ∧ regBytes s' := by
  refine ⟨_, set_bandwidth_eq s bw, rfl, ?_, hb.2.1, hb.2.2.1, hb.2.2.2⟩
  show (s.modemConfig1 &&& 0x0f) ||| (bwIndex bw <<< 4) < 256
  rw [show (256 : Nat) = 2 ^ 8 by norm_num]
  refine Nat.or_lt_two_pow (Nat.and_lt_two_pow _ (by norm_num)) ?_
  rw [Nat.shiftLeft_eq]
  have := bwIndex_le bw
  omega

/-- `set_spreading_factor` succeeds in range and keeps the invariant. -/
theorem set_spreading_factor_some (s : LoRaState) (sf : Int)
    (h6 : 6 ≤ sf) (h12 : sf ≤ 12) (hb : regBytes s) :
    ∃ s', set_spreading_factor s sf = some s' ∧
      s'.cfg = { s.cfg with spreading_factor := sf } ∧ regBytes s' := by
  refine ⟨_, set_spreading_factor_eq s sf h6 h12, rfl, hb.1, ?_, hb.2.2.1, hb.2.2.2⟩
  show (s.modemConfig2 &&& 0x0f) ||| ((sf.toNat <<< 4) &&& 0xf0) < 256
  rw [show (256 : Nat) = 2 ^ 8 by norm_num]
  exact Nat.or_lt_two_pow (Nat.and_lt_two_pow _ (by norm_num))
    (Nat.and_lt_two_pow _ (by norm_num))

/-- `set_coding_rate` succeeds and keeps the invariant. -/
theorem set_coding_rate_some (s : LoRaState) (denom : Int) (hb : regBytes s) :
    ∃ s', set_coding_rate s denom = some s' ∧
      s'.cfg = { s.cfg with coding_rate := min (max denom 5) 8 } ∧ regBytes s' := by
  refine ⟨_, set_coding_rate_eq s denom, rfl, ?_, hb.2.1, hb.2.2.1, hb.2.2.2⟩
  show (s.modemConfig1 &&& 0xf1) ||| ((min (max denom 5) 8 - 4).toNat <<< 1) < 256
  have h1 : (min (max denom 5) 8 - 4).toNat ≤ 4 := by omega
  rw [show (256 : Nat) = 2 ^ 8 by norm_num]
  refine Nat.or_lt_two_pow (Nat.and_lt_two_pow _ (by norm_num)) ?_
  rw [Nat.shiftLeft_eq]
  omega

/-- `set_preamble_length` succeeds and keeps the invariant. -/
theorem set_preamble_length_some (s : LoRaState) (length : Int) (hb : regBytes s) :
    ∃ s', set_preamble_length s length = some s' ∧
      s'.cfg = { s.cfg with preamble_length := max 6 (min length 65535) } ∧
      regBytes s' :=
  ⟨_, set_preamble_length_eq s length, rfl, hb⟩

/-- `set_crc` succeeds on a byte-normal state and keeps the invariant. -/
theorem set_crc_some (s : LoRaState) (crc : Bool) (hb : regBytes s) :
    ∃ s', set_crc s crc = some s' ∧
      s'.cfg = { s.cfg with crc := crc } ∧ regBytes s' := by
  refine ⟨_, set_crc_eq s crc hb.2.1, rfl, hb.1, ?_, hb.2.2.1, hb.2.2.2⟩
  show (if crc then s.modemConfig2 ||| 0x04 else s.modemConfig2 &&& 0xfb) < 256
  cases crc with
  | false => simpa using Nat.and_lt_two_pow s.modemConfig2 (by norm_num : (0xfb : Nat) < 2 ^ 8)
  | true =>
    simp only [if_true]
    rw [show (256 : Nat) = 2 ^ 8 by norm_num]
    exact Nat.or_lt_two_pow (by exact_mod_cast hb.2.1) (by norm_num)

/-- `set_sync_word` succeeds on a byte sync word and keeps the invariant. -/
theorem set_sync_word_some (s : LoRaState) (sw : Int) (h0 : 0 ≤ sw) (h1 : sw < 256)
    (hb : regBytes s) :
    ∃ s', set_sync_word s sw = some s' ∧
      s'.cfg = { s.cfg with sync_word := sw } ∧ regBytes s' :=
  ⟨_, set_sync_word_eq s sw h0 h1, rfl, hb⟩

/-- `set_implicit` succeeds on a byte-normal state and keeps the invariant. -/
theorem set_implicit_some (s : LoRaState) (implicit : Bool) (hb : regBytes s) :
    ∃ s', set_implicit s implicit = some s' ∧
      s'.cfg = { s.cfg with implicit := implicit } ∧ regBytes s' := by
  refine ⟨_, set_implicit_eq s implicit hb.1, rfl, ?_, hb.2.1, hb.2.2.1, hb.2.2.2⟩
  show (if implicit then s.modemConfig1 ||| 0x01 else s.modemConfig1 &&& 0xfe) < 256
  cases implicit with
  | false => simpa using Nat.and_lt_two_pow s.modemConfig1 (by norm_num : (0xfe : Nat) < 2 ^ 8)
  | true =>
    simp only [if_true]
    rw [show (256 : Nat) = 2 ^ 8 by norm_num]
    exact Nat.or_lt_two_pow (by exact_mod_cast hb.1) (by norm_num)

/-- The construction chain on the default configuration succeeds whatever
the version register returned: sleep, base addresses, every setter, LNA
boost, AGC, transmit power, standby. -/
theorem lora_init_defaults (reads : Nat → Nat) :
    ∃ s', (lora_init reads testState).2 = some s' := by
  simp only [lora_init, setMode, configure_radio]
  have hb0 : regBytes testState := ⟨by decide, by decide, by decide, by decide⟩
  obtain ⟨s1, e1, c1, hb1⟩ :=
    writeReg_other_some testState Reg.opMode (Modes.LORA_MASK ||| Modes.SLEEP)
      (by decide) (Or.inl rfl) hb0
  rw [e1, Option.some_bind]
  obtain ⟨s2, e2, c2, hb2⟩ :=
    writeReg_other_some s1 Reg.fifoTxBaseAddr Config.TX_BASE_ADDR (by decide)
      (Or.inr (Or.inl rfl)) hb1
  rw [e2, Option.some_bind]
  obtain ⟨s3, e3, c3, hb3⟩ :=
    writeReg_other_some s2 Reg.fifoRxBaseAddr Config.RX_BASE_ADDR (by decide)
      (Or.inr (Or.inr (Or.inl rfl))) hb2
  rw [e3, Option.some_bind]
  obtain ⟨s4, e4, c4, hb4⟩ := set_frequency_some s3 s3.cfg.frequency hb3
  rw [e4, Option.some_bind]
  obtain ⟨s5, e5, c5, hb5⟩ := set_bandwidth_some s4 s4.cfg.bandwidth hb4
  rw [e5, Option.some_bind]
  have hsf : s5.cfg.spreading_factor = 10 := by
    simp only [c5, c4, c3, c2, c1]
    rfl
  obtain ⟨s6, e6, c6, hb6⟩ :=
    set_spreading_factor_some s5 s5.cfg.spreading_factor
      (by rw [hsf]; norm_num) (by rw [hsf]; norm_num) hb5
  rw [e6, Option.some_bind]
  obtain ⟨s7, e7, c7, hb7⟩ := set_coding_rate_some s6 s6.cfg.coding_rate hb6
  rw [e7, Option.some_bind]
  obtain ⟨s8, e8, c8, hb8⟩ := set_preamble_length_some s7 s7.cfg.preamble_length hb7
  rw [e8, Option.some_bind]
  obtain ⟨s9, e9, c9, hb9⟩ := set_crc_some s8 s8.cfg.crc hb8
  rw [e9, Option.some_bind]
  have hsw : s9.cfg.sync_word = 0x12 := by
    simp only [c9, c8, c7, c6, c5, c4, c3, c2, c1]
    rfl
  obtain ⟨s10, e10, c10, hb10⟩ :=
    set_sync_word_some s9 s9.cfg.sync_word (by rw [hsw]; norm_num)
      (by rw [hsw]; norm_num) hb9
  rw [e10, Option.some_bind]
  obtain ⟨s11, e11, c11, hb11⟩ := set_implicit_some s10 s10.cfg.implicit hb10
  rw [e11, Option.some_bind]
  obtain ⟨s12, e12, c12, hb12⟩ := writeReg_lna_some s11 hb11
  rw [e12, Option.some_bind]
  obtain ⟨s13, e13, c13, hb13⟩ := writeReg_mc3_some s12 hb12
  rw [e13, Option.some_bind]
  have htp : s13.cfg.tx_power = 17 := by
    simp only [c13, c12, c11, c10, c9, c8, c7, c6, c5, c4, c3, c2, c1]
    rfl
  have hop : s13.cfg.output_pin = PAConfig.BOOST_PIN := by
    simp only [c13, c12, c11, c10, c9, c8, c7, c6, c5, c4, c3, c2, c1]
    rfl
  rw [htp, hop,
    set_tx_power_boost_low_eq s13 17 (by norm_num) (by norm_num) hb13.2.2.2,
    Option.some_bind, writeReg_coe _ _ _ (by decide)]
  exact ⟨_, rfl⟩

/-- C8: the identity check re-reads the version register at most 5 times
after the initial read (at most 6 reads total); the non-fatal warning is
surfaced exactly when none of those reads matched the expected constant
0x12; and regardless of what the version register returned, construction
does not fail — the initialization chain proceeds to configure the chip and
completes. -/
theorem C8_version_check_advisory (reads : Nat → Nat) :
    (verify_chip_version reads).2 ≤ 6 ∧
    ((verify_chip_version reads).1 = true ↔ ∀ i ≤ 5, reads i ≠ 0x12) ∧
    (lora_init reads testState).1 = (verify_chip_version reads).1 ∧
    ∃ s', (lora_init reads testState).2 = some s' :=
  ⟨(verify_cases reads).1, (verify_cases reads).2, rfl, lora_init_defaults reads⟩

/-! ### IRQ bitmask helpers -/

/-- Merging two flag sets that both avoid a mask still avoids the mask. -/
theorem or_and_eq_zero {a b c : Nat} (ha : a &&& c = 0) (hb : b &&& c = 0) :
    (a ||| b) &&& c = 0 := by
  apply Nat.eq_of_testBit_eq
  intro i
  have ha' := congrArg (fun x => Nat.testBit x i) ha
  have hb' := congrArg (fun x => Nat.testBit x i) hb
  simp only [Nat.testBit_and, Nat.zero_testBit] at ha' hb'
  simp only [Nat.testBit_and, Nat.testBit_or, Nat.zero_testBit]
  cases hta : a.testBit i <;> cases htb : b.testBit i <;>
    cases htc : c.testBit i <;> simp_all

/-- If a merged flag set avoids a mask, so does each part. -/
theorem and_eq_zero_of_or {a b c : Nat} (h : (a ||| b) &&& c = 0) :
    a &&& c = 0 ∧ b &&& c = 0 := by
  constructor <;>
  · apply Nat.eq_of_testBit_eq
    intro i
    have h' := congrArg (fun x => Nat.testBit x i) h
    simp only [Nat.testBit_and, Nat.testBit_or, Nat.zero_testBit] at h'
    simp only [Nat.testBit_and, Nat.zero_testBit]
    cases hta : a.testBit i <;> cases htb : b.testBit i <;>
      cases htc : c.testBit i <;> simp_all

set_option maxRecDepth 10000 in
/-- Writing back every flag that was read clears the whole byte. -/
theorem and_xor_self_byte : ∀ n < 256, n &&& (255 ^^^ n) = 0 := by decide

/-! ### Claim C7: end_packet transmit/timeout behaviour -/

/-- On timeout the polling loop returns failure without any register
write. -/
theorem endPacketLoop_timeout (latched : Nat → Nat) :
    ∀ fuel i (s : LoRaState),
      s.irqFlags &&& IRQFlags.TX_DONE = 0 →
      (∀ j, latched j &&& IRQFlags.TX_DONE = 0) →
      ∃ s', endPacketLoop latched fuel i s = some (false, s') ∧
        s'.opMode = s.opMode ∧ s'.writes = s.writes := by
  intro fuel
  induction fuel with
  | zero => exact fun i s h _ => ⟨s, rfl, rfl, rfl⟩
  | succ n ih =>
    intro i s hs hl
    simp only [endPacketLoop, readReg]
    have hbit : (s.irqFlags ||| latched i) &&& IRQFlags.TX_DONE = 0 :=
      or_and_eq_zero hs (hl i)
    rw [if_neg (by simpa using hbit)]
    exact ih (i + 1) _ hbit hl

/-- As soon as the chip latches the transmit-complete bit, the polling loop
acknowledges exactly that bit and returns success. -/
theorem endPacketLoop_success (latched : Nat → Nat) :
    ∀ fuel i (s : LoRaState) k, k < fuel →
      latched (i + k) &&& IRQFlags.TX_DONE ≠ 0 →
      ∃ s', endPacketLoop latched fuel i s = some (true, s') ∧
        s'.opMode = s.opMode ∧
        s'.writes = s.writes ++ [(Registers.IRQ_FLAGS, ((IRQFlags.TX_DONE : Nat) : Int))] ∧
        s'.irqFlags &&& IRQFlags.TX_DONE = 0 := by
  intro fuel
  induction fuel with
  | zero => omega
  | succ n ih =>
    intro i s k hk hbit
    simp only [endPacketLoop, readReg]
    by_cases hnow : (s.irqFlags ||| latched i) &&& IRQFlags.TX_DONE ≠ 0
    · rw [if_pos (by simpa using hnow)]
      rw [writeReg_coe _ _ _ (by decide)]
      simp only [Option.map_some', applyWrite]
      refine ⟨_, rfl, rfl, rfl, ?_⟩
      show ((s.irqFlags ||| latched i) &&& (255 ^^^ IRQFlags.TX_DONE)) &&& IRQFlags.TX_DONE = 0
      rw [Nat.and_assoc,
        show (255 ^^^ IRQFlags.TX_DONE) &&& IRQFlags.TX_DONE = 0 from by decide,
        Nat.and_zero]
    · push_neg at hnow
      rw [if_neg (by simpa using hnow)]
      cases k with
      | zero =>
        exact absurd ((and_eq_zero_of_or hnow).2) (by simpa using hbit)
      | succ m =>
        rw [show i + (m + 1) = (i + 1) + m from by omega] at hbit
        exact ih (i + 1) _ m (by omega) hbit

/-- C7: `end_packet` switches the chip to transmit mode and polls the IRQ
register.  If the transmit-complete bit is never latched within the
timeout, it returns failure having performed no write beyond the single
transmit-mode write, so the operating mode is left as transmit; if the bit
is latched before the polls run out, it acknowledges exactly that bit and
returns success, again leaving the mode as transmit. -/
theorem C7_end_packet (s : LoRaState) (latched : Nat → Nat) (fuel : Nat) :
    (s.irqFlags &&& IRQFlags.TX_DONE = 0 →
      (∀ j, latched j &&& IRQFlags.TX_DONE = 0) →
      ∃ s', end_packet latched fuel s = some (false, s') ∧
        s'.opMode = Modes.LORA_MASK ||| Modes.TX ∧
        s'.writes = s.writes ++
          [(Registers.OP_MODE, ((Modes.LORA_MASK ||| Modes.TX : Nat) : Int))]) ∧
    (∀ k, k < fuel → latched k &&& IRQFlags.TX_DONE ≠ 0 →
      ∃ s', end_packet latched fuel s = some (true, s') ∧
        s'.opMode = Modes.LORA_MASK ||| Modes.TX ∧
        s'.irqFlags &&& IRQFlags.TX_DONE = 0 ∧
        s'.writes = s.writes ++
          [(Registers.OP_MODE, ((Modes.LORA_MASK ||| Modes.TX : Nat) : Int)),
           (Registers.IRQ_FLAGS, ((IRQFlags.TX_DONE : Nat) : Int))]) := by
  constructor
  · intro hs hl
    simp only [end_packet, setMode]
    rw [writeReg_coe _ _ _ (by decide), Option.some_bind]
    obtain ⟨s', hloop, hop, hw⟩ := endPacketLoop_timeout latched fuel 0
      (applyWrite
        { s with writes := s.writes ++
            [(regAddr Reg.opMode, ((Modes.LORA_MASK ||| Modes.TX : Nat) : Int))] }
        Reg.opMode (Modes.LORA_MASK ||| Modes.TX)) hs hl
    refine ⟨s', hloop, ?_, ?_⟩
    · rw [hop]
      rfl
    · rw [hw]
      simp [applyWrite, regAddr]
  · intro k hk hbit
    simp only [end_packet, setMode]
    rw [writeReg_coe _ _ _ (by decide), Option.some_bind]
    obtain ⟨s', hloop, hop, hw, hirq⟩ := endPacketLoop_success latched fuel 0
      (applyWrite
        { s with writes := s.writes ++
            [(regAddr Reg.opMode, ((Modes.LORA_MASK ||| Modes.TX : Nat) : Int))] }
        Reg.opMode (Modes.LORA_MASK ||| Modes.TX)) k hk (by simpa using hbit)
    refine ⟨s', hloop, ?_, hirq, ?_⟩
    · rw [hop]
      rfl
    · rw [hw]
      simp [applyWrite, regAddr]

/-- Witness for C7: with no transmit-complete event in 2 polls the call
fails leaving transmit mode; with the event latched before poll 1 of 3 it
succeeds and acknowledges the bit. -/
theorem C7_witness :
    (∃ s', end_packet (fun _ => 0) 2 testState = some (false, s') ∧
      s'.opMode = Modes.LORA_MASK ||| Modes.TX ∧
      s'.writes = testState.writes ++
        [(Registers.OP_MODE, ((Modes.LORA_MASK ||| Modes.TX : Nat) : Int))]) ∧
    (∃ s', end_packet (fun j => if j = 1 then IRQFlags.TX_DONE else 0) 3 testState
        = some (true, s') ∧
      s'.opMode = Modes.LORA_MASK ||| Modes.TX ∧
      s'.irqFlags &&& IRQFlags.TX_DONE = 0 ∧
      s'.writes = testState.writes ++
        [(Registers.OP_MODE, ((Modes.LORA_MASK ||| Modes.TX : Nat) : Int)),
         (Registers.IRQ_FLAGS, ((IRQFlags.TX_DONE : Nat) : Int))]) :=
  ⟨(C7_end_packet testState (fun _ => 0) 2).1 (by decide) (fun j => by decide),
   (C7_end_packet testState (fun j => if j = 1 then IRQFlags.TX_DONE else 0) 3).2
     1 (by norm_num) (by decide)⟩

/-! ### Claim C9: the poll path never clears the CRC-error flag -/

/-- With the payload-CRC-error bit latched, the polling loop acknowledges
only the receive-complete bit at each frame, so it never delivers a payload
and the CRC-error bit is still latched when it gives up. -/
theorem receiveLoop_crc_latched (arrivals : Nat → Nat) (payloads : Nat → List Nat) :
    ∀ fuel i (s : LoRaState),
      s.irqFlags &&& IRQFlags.PAYLOAD_CRC_ERROR ≠ 0 →
      ∃ s', receiveLoop arrivals payloads fuel i s = some (none, s') ∧
        s'.irqFlags &&& IRQFlags.PAYLOAD_CRC_ERROR ≠ 0 := by
  intro fuel
  induction fuel with
  | zero => exact fun i s h => ⟨s, rfl, h⟩
  | succ n ih =>
    intro i s h
    simp only [receiveLoop, readReg]
    have h1 : (s.irqFlags ||| arrivals i) &&& IRQFlags.PAYLOAD_CRC_ERROR ≠ 0 :=
      fun hz => h (and_eq_zero_of_or hz).1
    by_cases hrx : (s.irqFlags ||| arrivals i) &&& IRQFlags.RX_DONE ≠ 0
    · rw [if_pos (by simpa using hrx)]
      rw [writeReg_coe _ _ _ (by decide)]
      simp only [Option.some_bind, applyWrite]
      rw [if_neg h1]
      refine ih (i + 1) _ ?_
      show ((s.irqFlags ||| arrivals i) &&& (255 ^^^ IRQFlags.RX_DONE)) &&&
        IRQFlags.PAYLOAD_CRC_ERROR ≠ 0
      rw [Nat.and_assoc,
        show (255 ^^^ IRQFlags.RX_DONE) &&& IRQFlags.PAYLOAD_CRC_ERROR
          = IRQFlags.PAYLOAD_CRC_ERROR from by decide]
      exact h1
    · push_neg at hrx
      rw [if_neg (by simpa using hrx)]
      exact ih (i + 1) _ h1

/-- C9: once the chip has latched the payload-CRC-error bit, the polling
receive path — which acknowledges only the receive-complete bit — treats
every later frame as CRC-errored and drops it, returning no data with the
CRC-error bit still latched; the interrupt handler instead writes back all
the flags it read, leaving the IRQ register fully cleared. -/
theorem C9_crc_error_latched (s : LoRaState) (arrivals : Nat → Nat)
    (payloads : Nat → List Nat) (fuel : Nat) (payload : List Nat)
    (hcrc : s.irqFlags &&& IRQFlags.PAYLOAD_CRC_ERROR ≠ 0)
    (hbyte : s.irqFlags < 256) :
    (∃ s', receive_message arrivals payloads fuel s = some (none, s') ∧
       s'.irqFlags &&& IRQFlags.PAYLOAD_CRC_ERROR ≠ 0) ∧
    (∃ r, irq_handler s payload = some r ∧ r.2.irqFlags = 0) := by
  constructor
  · simp only [receive_message, setMode]
    rw [writeReg_coe _ _ _ (by decide), Option.some_bind]
    exact receiveLoop_crc_latched arrivals payloads fuel 0
      (applyWrite
        { s with writes := s.writes ++
            [(regAddr Reg.opMode,
              ((Modes.LORA_MASK ||| Modes.RX_CONTINUOUS : Nat) : Int))] }
        Reg.opMode (Modes.LORA_MASK ||| Modes.RX_CONTINUOUS)) hcrc
  · simp only [irq_handler, readReg]
    rw [writeReg_coe _ _ _ hbyte]
    simp only [Option.map_some']
    refine ⟨_, rfl, ?_⟩
    show (if _ then _ else _ : Option (List Nat) × LoRaState).2.irqFlags = 0
    split <;> exact and_xor_self_byte s.irqFlags hbyte

/-- Witness for C9: CRC-error latched (IRQ byte 0x60), good frames keep
arriving, yet 3 polls deliver nothing and the bit stays latched; the
handler on the same state clears the register. -/
theorem C9_witness :
    (∃ s', receive_message (fun _ => IRQFlags.RX_DONE) (fun _ => [1])
        3 { testState with irqFlags := 0x60 } = some (none, s') ∧
      s'.irqFlags &&& IRQFlags.PAYLOAD_CRC_ERROR ≠ 0) ∧
    (∃ r, irq_handler { testState with irqFlags := 0x60 } [2] = some r ∧
      r.2.irqFlags = 0) :=
  C9_crc_error_latched { testState with irqFlags := 0x60 }
    (fun _ => IRQFlags.RX_DONE) (fun _ => [1]) 3 [2] (by decide) (by decide)

/-! ### Claim C1: get_config after setter sequences -/

/-- Configuration effect of `set_frequency`, for any successful call. -/
theorem set_frequency_cfg {s : LoRaState} {f : ℚ} {s' : LoRaState}
    (h : set_frequency s f = some s') : s'.cfg = { s.cfg with frequency := f } := by
  simp only [set_frequency] at h
  rcases Option.bind_eq_some.mp h with ⟨a, ha, h⟩
  rcases Option.bind_eq_some.mp h with ⟨b, hb, h⟩
  rw [cfg_of_writeReg h, cfg_of_writeReg hb, cfg_of_writeReg ha]

/-- Configuration effect of `set_bandwidth`, for any successful call. -/
theorem set_bandwidth_cfg {s : LoRaState} {bw : Int} {s' : LoRaState}
    (h : set_bandwidth s bw = some s') : s'.cfg = { s.cfg with bandwidth := bw } := by
  simp only [set_bandwidth] at h
  rcases Option.bind_eq_some.mp h with ⟨a, ha, h⟩
  split at h <;> rw [cfg_of_writeReg h, cfg_of_writeReg ha]

/-- Configuration effect of `set_spreading_factor`, for any successful
call. -/
theorem set_spreading_factor_cfg {s : LoRaState} {sf : Int} {s' : LoRaState}
    (h : set_spreading_factor s sf = some s') :
    s'.cfg = { s.cfg with spreading_factor := sf } := by
  simp only [set_spreading_factor] at h
  split at h
  · exact absurd h (by simp)
  · rcases Option.bind_eq_some.mp h with ⟨a, ha, h⟩
    rcases Option.bind_eq_some.mp h with ⟨b, hb, h⟩
    rcases Option.bind_eq_some.mp h with ⟨c, hc, h⟩
    split at h <;>
      rw [cfg_of_writeReg h, cfg_of_writeReg hc, cfg_of_writeReg hb, cfg_of_writeReg ha]

/-- Configuration effect of `set_coding_rate`: the stored value is
clamped. -/
theorem set_coding_rate_cfg {s : LoRaState} {denom : Int} {s' : LoRaState}
    (h : set_coding_rate s denom = some s') :
    s'.cfg = { s.cfg with coding_rate := min (max denom 5) 8 } := by
  simp only [set_coding_rate] at h
  rw [cfg_of_writeReg h]

/-- Configuration effect of `set_preamble_length`: the stored value is
clamped. -/
theorem set_preamble_length_cfg {s : LoRaState} {length : Int} {s' : LoRaState}
    (h : set_preamble_length s length = some s') :
    s'.cfg = { s.cfg with preamble_length := max 6 (min length 65535) } := by
  simp only [set_preamble_length] at h
  rcases Option.bind_eq_some.mp h with ⟨a, ha, h⟩
  rw [cfg_of_writeReg h, cfg_of_writeReg ha]

/-- Configuration effect of `set_crc`. -/
theorem set_crc_cfg {s : LoRaState} {crc : Bool} {s' : LoRaState}
    (h : set_crc s crc = some s') : s'.cfg = { s.cfg with crc := crc } := by
  simp only [set_crc] at h
  rw [cfg_of_writeReg h]

/-- Configuration effect of `set_sync_word`. -/
theorem set_sync_word_cfg {s : LoRaState} {sw : Int} {s' : LoRaState}
    (h : set_sync_word s sw = some s') : s'.cfg = { s.cfg with sync_word := sw } := by
  simp only [set_sync_word] at h
  rw [cfg_of_writeReg h]

/-- Configuration effect of `set_implicit`. -/
theorem set_implicit_cfg {s : LoRaState} {implicit : Bool} {s' : LoRaState}
    (h : set_implicit s implicit = some s') :
    s'.cfg = { s.cfg with implicit := implicit } := by
  simp only [set_implicit] at h
  rw [cfg_of_writeReg h]

/-- Configuration effect of `set_tx_power`: the stored level is the raw
requested level, on every path. -/
theorem set_tx_power_cfg {s : LoRaState} {level pin : Int} {s' : LoRaState}
    (h : set_tx_power s level pin = some s') :
    s'.cfg = { s.cfg with tx_power := level, output_pin := pin } := by
  simp only [set_tx_power] at h
  split at h
  · rw [cfg_of_writeReg h]
  · split at h
    · rcases Option.bind_eq_some.mp h with ⟨a, ha, h⟩
      rw [cfg_of_writeReg h]
      split at ha <;> rw [cfg_of_writeReg ha]
    · rcases Option.bind_eq_some.mp h with ⟨a, ha, h⟩
      rw [cfg_of_writeReg h, cfg_of_writeReg ha]

/-- Configuration effect of one dispatched setter call. -/
theorem applyCall_cfg {s : LoRaState} {c : SetterCall} {s' : LoRaState}
    (h : applyCall s c = some s') : s'.cfg = cfgAfter s.cfg c := by
  cases c with
  | frequency f => exact set_frequency_cfg h
  | bandwidth bw => exact set_bandwidth_cfg h
  | spreadingFactor sf => exact set_spreading_factor_cfg h
  | codingRate denom => exact set_coding_rate_cfg h
  | preambleLength length => exact set_preamble_length_cfg h
  | crc b => exact set_crc_cfg h
  | syncWord sw => exact set_sync_word_cfg h
  | implicitHeader b => exact set_implicit_cfg h
  | txPower level pin => exact set_tx_power_cfg h

/-- C1 (amended): after any successful sequence of setter calls,
`get_config()` returns the configuration obtained by folding the per-call
stores: each parameter equals the last value passed to its setter, where
`coding_rate` is clamped to [5,8] and `preamble_length` to [6,65535] before
storing, while `tx_power` (like the other parameters) is stored exactly as
passed — unclamped — even though the register receives the clamped
encoding. -/
theorem C1_get_config (s : LoRaState) (calls : List SetterCall) :
    ∀ {s' : LoRaState}, applyCalls s calls = some s' →
      get_config s' = List.foldl cfgAfter (get_config s) calls := by
  induction calls generalizing s with
  | nil =>
    intro s' h
    simp only [applyCalls] at h
    injection h with h
    subst h
    rfl
  | cons c cs ih =>
    intro s' h
    simp only [applyCalls] at h
    rcases Option.bind_eq_some.mp h with ⟨a, ha, h2⟩
    have hih := ih a h2
    have hc : get_config a = cfgAfter (get_config s) c := applyCall_cfg ha
    rw [List.foldl_cons, hih, hc]

/-- C1 counterexample: `set_tx_power(20, RFO)` stores the raw 20 in the
configuration while the register receives the clamped encoding
`0x70 | 14 = 0x7E`; the snapshot does not hold the clamped value 14, so the
claim that `get_config` reflects the clamped value is false. -/
theorem C1_counterexample :
    ∃ s', applyCalls testState [SetterCall.txPower 20 PAConfig.RFO_PIN] = some s' ∧
      (get_config s').tx_power = 20 ∧
      s'.paConfig = 0x7E ∧
      min (max (20 : Int) 0) 14 = 14 ∧
      (get_config s').tx_power ≠ min (max (20 : Int) 0) 14 := by
  simp only [applyCalls, applyCall]
  rw [set_tx_power_rfo_eq]
  simp only [Option.some_bind]
  exact ⟨_, rfl, rfl, by decide, by decide, by decide⟩

/-- Witness for C1 on a concrete call sequence exercising clamping
(coding rate 9 → 8, preamble 3 → 6) and the raw tx_power store (20). -/
theorem C1_witness :
    ∃ s', applyCalls testState
        [SetterCall.codingRate 9, SetterCall.preambleLength 3,
         SetterCall.txPower 20 PAConfig.RFO_PIN, SetterCall.crc true]
        = some s' ∧
      get_config s' = List.foldl cfgAfter (get_config testState)
        [SetterCall.codingRate 9, SetterCall.preambleLength 3,
         SetterCall.txPower 20 PAConfig.RFO_PIN, SetterCall.crc true] := by
  obtain ⟨s', hs⟩ : ∃ t, applyCalls testState
      [SetterCall.codingRate 9, SetterCall.preambleLength 3,
       SetterCall.txPower 20 PAConfig.RFO_PIN, SetterCall.crc true] = some t :=
    ⟨_, rfl⟩
  exact ⟨s', hs, C1_get_config testState _ hs⟩

end SX127x
